import Mathlib

/-!
Verification of the mol* units-visual update/diffing engine
(`src/mol-geo/representation/structure/units-visual.ts` and collaborators).

The TypeScript source is shallowly embedded: the closure state of
`UnitsMeshVisual` / `UnitsPointsVisual` / `UnitsLinesVisual` becomes an
explicit state record, the async `createOrUpdate` / `create` / `update`
functions become pure state-passing functions, JavaScript `deepEqual`
becomes structural equality, and throwing becomes an `Except` result.
External collaborators that live outside the sampled sources
(`createMarkers`, `createUnitsTransform`, `createColors`, `createSizes`,
`applyMarkerAction`, the render-object factories and the canonical empty
geometries) are modelled from the spec's description of their interfaces.
-/

namespace UnitsVisual

/-- `Unit.Kind` (Atomic | Spheres | Gaussians). -/
inductive UnitKind
  | atomic
  | spheres
  | gaussians
deriving DecidableEq, Repr

/-- A structural unit: its kind, its conformation identity
(`Unit.conformationId`, a UUID modelled as `Nat`) and its spatial
transform (symmetry operator, modelled opaquely as `Nat`). -/
structure MUnit where
  kind : UnitKind
  conformationId : Nat
  transform : Nat
deriving DecidableEq, Repr

/-- `Unit.SymmetryGroup`: `hashCode` is the shape identity, `units` the
ordered list of symmetry-copy units.  `objId` models JavaScript object
identity (two structurally equal groups can be different objects). -/
structure SymmetryGroup where
  objId : Nat
  hashCode : Nat
  units : List MUnit
deriving DecidableEq, Repr

def defaultUnit : MUnit := ⟨UnitKind.atomic, 0, 0⟩

def defaultGroup : SymmetryGroup := ⟨0, 0, []⟩

/-- `group.units[0]`, the representative unit. -/
def repUnit (g : SymmetryGroup) : MUnit := g.units.headD defaultUnit

/-- `sameGroupConformation` (units-visual.ts lines 32-37). -/
def sameGroupConformation (groupA groupB : SymmetryGroup) : Bool :=
  decide (groupA.units.length = groupB.units.length) &&
  decide ((repUnit groupA).conformationId = (repUnit groupB).conformationId)

/-- A color theme: opaque theme payload plus the structure reference the
engine binds into it (`props.colorTheme.structure = currentStructure`). -/
structure ColorTheme where
  theme : Nat
  boundStructure : Option Nat
deriving DecidableEq, Repr

/-- The property bag relevant to the engine's universal diff rules,
plus an opaque builder-specific remainder. -/
structure Props where
  sizeTheme : Nat
  colorTheme : ColorTheme
  unitKinds : List UnitKind
  builderProps : Nat
deriving DecidableEq, Repr

/-- `Partial<P>`: every field optional; `none` means the key is absent. -/
structure PropsPatch where
  sizeTheme : Option Nat := none
  colorTheme : Option ColorTheme := none
  unitKinds : Option (List UnitKind) := none
  builderProps : Option Nat := none
deriving DecidableEq, Repr

/-- `Object.assign({}, currentProps, props)`: patch fields win. -/
def mergeProps (cur : Props) (p : PropsPatch) : Props :=
  { sizeTheme := p.sizeTheme.getD cur.sizeTheme
    colorTheme := p.colorTheme.getD cur.colorTheme
    unitKinds := p.unitKinds.getD cur.unitKinds
    builderProps := p.builderProps.getD cur.builderProps }

/-- `props.colorTheme.structure = currentStructure`. -/
def bindStructure (p : Props) (s : Option Nat) : Props :=
  { p with colorTheme := { p.colorTheme with boundStructure := s } }

/-- Modelled from the spec: `VisualUpdateState`, the ephemeral per-update
record of boolean flags (`createGeometry`, `updateColor`, `updateSize`,
`updateTransform`); its definition lives outside the sampled sources. -/
structure VisualUpdateState where
  createGeometry : Bool := false
  updateColor : Bool := false
  updateSize : Bool := false
  updateTransform : Bool := false
deriving DecidableEq, Repr

/-- `VisualUpdateState.reset`: all flags false. -/
def VisualUpdateState.reset : VisualUpdateState := {}

/-- `LocationIterator` counts (the cursor itself is irrelevant to the
claims; `reset()` is a no-op at this level of abstraction). -/
structure LocIter where
  groupCount : Nat
  instanceCount : Nat
deriving DecidableEq, Repr

/-- Mesh geometry: triangle count plus opaque vertex payload. -/
structure Mesh where
  triangleCount : Nat
  vertexData : Nat
deriving DecidableEq, Repr

/-- Modelled from the spec: `Mesh.createEmpty`, the canonical empty mesh. -/
def Mesh.createEmpty : Mesh := ⟨0, 0⟩

/-- Points geometry. -/
structure Points where
  pointCount : Nat
  vertexData : Nat
deriving DecidableEq, Repr

/-- Modelled from the spec: `Points.createEmpty`, the canonical empty points. -/
def Points.createEmpty : Points := ⟨0, 0⟩

/-- Lines geometry. -/
structure Lines where
  lineCount : Nat
  vertexData : Nat
deriving DecidableEq, Repr

/-- Modelled from the spec: `Lines.createEmpty`, the canonical empty lines. -/
def Lines.createEmpty : Lines := ⟨0, 0⟩

/-- The mutable value cells of a render object.  `color`/`size` record the
(location iterator, theme) pair they were computed from; `markerVersion`
models the `ValueCell.update` re-upload signal on the marker cell;
`themeValues` models the declarative values pushed by
`Mesh/Points/Lines.updateValues`. -/
structure Values where
  drawCount : Nat
  transform : List Nat
  marker : List Nat
  markerVersion : Nat
  color : LocIter × ColorTheme
  size : LocIter × Nat
  themeValues : Props
deriving DecidableEq, Repr

/-- A render object: value cells plus renderable state
(`updateRenderableState` recomputes `rstate` from the merged props). -/
structure RenderObject where
  id : Nat
  values : Values
  rstate : Props
deriving DecidableEq, Repr

/-- Loci, as needed by `mark`: the every-loci and empty-loci sentinels of
mol-model/loci.ts plus an opaque element locus. -/
inductive Loci
  | everyLoci
  | emptyLoci
  | elementLoci (d : Nat)
deriving DecidableEq, Repr

/-- `isEveryLoci` (mol-model/loci.ts lines 20-22): kind tag check. -/
def isEveryLoci : Loci → Bool
  | Loci.everyLoci => true
  | _ => false

/-- `StructureGroup = { structure, group }`. -/
structure StructureGroup where
  structureRef : Nat
  group : SymmetryGroup
deriving DecidableEq, Repr

/-- Index-carrying map over a list, modelling the JavaScript
`for (let i = start; ...)` writes into a typed array. -/
def mapWithIndex (f : Nat → Nat → Nat) : Nat → List Nat → List Nat
  | _, [] => []
  | i, bVal :: rest => f i bVal :: mapWithIndex f (i + 1) rest

/-- Modelled from the spec: `applyMarkerAction(array, start, end, action)`
applies the marker action to every byte in `[start, stop)` and reports
whether any byte actually changed; it lives in geometry/marker-data
outside the sampled sources.  The action itself is a per-byte function. -/
def applyIntervalAction (arr : List Nat) (start stop : Nat) (action : Nat → Nat) : List Nat :=
  mapWithIndex (fun i bVal => if start ≤ i ∧ i < stop then action bVal else bVal) 0 arr

def applyMarkerAction (arr : List Nat) (start stop : Nat) (action : Nat → Nat) :
    List Nat × Bool :=
  let arr2 := applyIntervalAction arr start stop action
  (arr2, decide (arr2 ≠ arr))

/-- Modelled from the spec: `createUnitsTransform(group, values)` writes
one transform matrix per instance (per unit of the group). -/
def createUnitsTransform (g : SymmetryGroup) (v : Values) : Values :=
  { v with transform := g.units.map (fun u => u.transform) }

/-- Modelled from the spec: `createMarkers(count, values)` (re)allocates
the marker buffer to the given length, zero-initialised. -/
def createMarkers (n : Nat) (v : Values) : Values :=
  { v with marker := List.replicate n 0 }

/-- Modelled from the spec: `createColors(ctx, locationIt, colorTheme,
values)` recomputes the color buffer from the theme over the iterator. -/
def createColors (it : LocIter) (ct : ColorTheme) (v : Values) : Values :=
  { v with color := (it, ct) }

/-- Modelled from the spec: `createSizes(ctx, locationIt, sizeTheme,
values)` recomputes the size buffer from the theme over the iterator. -/
def createSizes (it : LocIter) (sizeTheme : Nat) (v : Values) : Values :=
  { v with size := (it, sizeTheme) }

/-- Modelled from the spec: `createUnitsMeshRenderObject` allocates value
cells sized from the geometry and the iterator counts (`drawCount =
triangleCount * 3`, marker length `instanceCount * groupCount`). -/
def createUnitsMeshRenderObject (g : SymmetryGroup) (m : Mesh) (it : LocIter)
    (p : Props) : RenderObject :=
  { id := 0
    values := { drawCount := m.triangleCount * 3
                transform := g.units.map (fun u => u.transform)
                marker := List.replicate (it.instanceCount * it.groupCount) 0
                markerVersion := 0
                color := (it, p.colorTheme)
                size := (⟨0, 0⟩, 0)
                themeValues := p }
    rstate := p }

/-- Modelled from the spec: `createUnitsPointsRenderObject`
(`drawCount = pointCount`, with a size buffer). -/
def createUnitsPointsRenderObject (g : SymmetryGroup) (pts : Points) (it : LocIter)
    (p : Props) : RenderObject :=
  { id := 0
    values := { drawCount := pts.pointCount
                transform := g.units.map (fun u => u.transform)
                marker := List.replicate (it.instanceCount * it.groupCount) 0
                markerVersion := 0
                color := (it, p.colorTheme)
                size := (it, p.sizeTheme)
                themeValues := p }
    rstate := p }

/-- Modelled from the spec: `createUnitsLinesRenderObject`
(`drawCount = lineCount`, with a size buffer). -/
def createUnitsLinesRenderObject (g : SymmetryGroup) (ls : Lines) (it : LocIter)
    (p : Props) : RenderObject :=
  { id := 0
    values := { drawCount := ls.lineCount
                transform := g.units.map (fun u => u.transform)
                marker := List.replicate (it.instanceCount * it.groupCount) 0
                markerVersion := 0
                color := (it, p.colorTheme)
                size := (it, p.sizeTheme)
                themeValues := p }
    rstate := p }

/-- Which branch of `createOrUpdate` was taken. -/
inductive CallPath
  | createPath
  | updatePath
deriving DecidableEq, Repr

/-- Instrumentation describing a single `createOrUpdate` call: the branch
taken, the final `VisualUpdateState` of the update pass (reset on the
create path), whether the builder's geometry function was invoked, and
whether a supplied group was adopted as `currentGroup`. -/
structure CallInfo where
  path : CallPath
  flags : VisualUpdateState
  builderInvoked : Bool
  adopted : Bool
deriving DecidableEq, Repr

instance {ε α : Type} [DecidableEq ε] [DecidableEq α] : DecidableEq (Except ε α) :=
  fun a b =>
    match a, b with
    | Except.error e1, Except.error e2 =>
      if h : e1 = e2 then Decidable.isTrue (by rw [h])
      else Decidable.isFalse (by simp [h])
    | Except.ok x, Except.ok y =>
      if h : x = y then Decidable.isTrue (by rw [h])
      else Decidable.isFalse (by simp [h])
    | Except.error _, Except.ok _ => Decidable.isFalse (by simp)
    | Except.ok _, Except.error _ => Decidable.isFalse (by simp)

/-- `UnitsMeshVisualBuilder`: the capability record passed to
`UnitsMeshVisual`.  `createMesh` receives the representative unit, the
current structure, the merged props and the previous mesh; `markIntervals`
models the builder's `mark` callback as the list of intervals on which it
calls `apply` (real builders, e.g. `eachNucleotideElement`, OR the results
of their `apply` calls into their return value). -/
structure MeshBuilder where
  defaultProps : Props
  createMesh : MUnit → Option Nat → Props → Option Mesh → Mesh
  createLocationIterator : SymmetryGroup → LocIter
  setUpdateState : VisualUpdateState → Props → Props → VisualUpdateState
  markIntervals : Loci → SymmetryGroup → List (Nat × Nat)

/-- The closure state of one `UnitsMeshVisual` instance (the `let`
variables of the TypeScript closure; all start `undefined`). -/
structure MeshVisualState where
  renderObject : Option RenderObject
  currentProps : Option Props
  mesh : Option Mesh
  currentGroup : Option SymmetryGroup
  currentStructure : Option Nat
  locationIt : Option LocIter
  currentConformationId : Option Nat
deriving DecidableEq, Repr

def MeshVisualState.init : MeshVisualState := ⟨none, none, none, none, none, none, none⟩

/-- `create` (units-visual.ts lines 68-82). -/
def meshCreate (b : MeshBuilder) (s : MeshVisualState) (g : SymmetryGroup)
    (patch : PropsPatch) : MeshVisualState × CallInfo :=
  let props := bindStructure (mergeProps b.defaultProps patch) s.currentStructure
  let unit := repUnit g
  let confId := unit.conformationId
  let invoked := decide (unit.kind ∈ props.unitKinds)
  let m := if unit.kind ∈ props.unitKinds
           then b.createMesh unit s.currentStructure props s.mesh
           else Mesh.createEmpty
  let it := b.createLocationIterator g
  let ro := createUnitsMeshRenderObject g m it props
  ({ renderObject := some ro
     currentProps := some props
     mesh := some m
     currentGroup := some g
     currentStructure := s.currentStructure
     locationIt := some it
     currentConformationId := some confId },
   { path := CallPath.createPath, flags := VisualUpdateState.reset
     builderInvoked := invoked, adopted := false })

/-- The universal diff rules of the mesh `update` (units-visual.ts lines
95-105), applied after the builder's `setUpdateState` hook. -/
def meshUniversalDiff (st : VisualUpdateState) (newProps curProps : Props)
    (newConfId curConfId : Nat) (groupUnitCount itInstanceCount : Nat) :
    VisualUpdateState :=
  let st := if newConfId ≠ curConfId then { st with createGeometry := true } else st
  let st := if groupUnitCount ≠ itInstanceCount then { st with updateTransform := true } else st
  let st := if newProps.sizeTheme ≠ curProps.sizeTheme then { st with createGeometry := true } else st
  let st := if newProps.colorTheme ≠ curProps.colorTheme then { st with updateColor := true } else st
  let st := if newProps.unitKinds ≠ curProps.unitKinds then { st with createGeometry := true } else st
  st

/-- Result of one mesh `update` pass. -/
structure MeshUpdateResult where
  values : Values
  rstate : Props
  props : Props
  mesh : Mesh
  locIt : LocIter
  confId : Nat
  flags : VisualUpdateState
  builderInvoked : Bool
deriving Repr

/-- The body of the mesh `update` after the merged `newProps` have been
computed (units-visual.ts lines 89-133). -/
def meshUpdateCore (b : MeshBuilder) (newProps curProps : Props) (group : SymmetryGroup)
    (curMesh : Mesh) (locIt : LocIter) (curConfId : Nat)
    (structureRef : Option Nat) (values : Values) :
    MeshUpdateResult :=
  let unit := repUnit group
  let st := b.setUpdateState VisualUpdateState.reset newProps curProps
  let newConfId := unit.conformationId
  let st := meshUniversalDiff st newProps curProps newConfId curConfId
              group.units.length locIt.instanceCount
  let step1 : LocIter × Values × VisualUpdateState :=
    if st.updateTransform then
      let it := b.createLocationIterator group
      (it, createMarkers (it.instanceCount * it.groupCount) (createUnitsTransform group values),
       { st with updateColor := true })
    else (locIt, values, st)
  let locIt2 := step1.1
  let values := step1.2.1
  let st := step1.2.2
  let step2 : Mesh × Values × VisualUpdateState × Bool :=
    if st.createGeometry then
      let m := if unit.kind ∈ newProps.unitKinds
               then b.createMesh unit structureRef newProps (some curMesh)
               else Mesh.createEmpty
      (m, { values with drawCount := m.triangleCount * 3 },
       { st with updateColor := true }, decide (unit.kind ∈ newProps.unitKinds))
    else (curMesh, values, st, false)
  let mesh2 := step2.1
  let values := step2.2.1
  let st := step2.2.2.1
  let invoked := step2.2.2.2
  let values := if st.updateColor then createColors locIt2 newProps.colorTheme values else values
  let values := { values with themeValues := newProps }
  { values := values, rstate := newProps, props := newProps, mesh := mesh2
    locIt := locIt2, confId := newConfId, flags := st, builderInvoked := invoked }

/-- `update` (units-visual.ts lines 84-134): merge the props
(`Object.assign`), rebind the structure into the color theme, then run
the diff-and-apply body. -/
def meshUpdate (b : MeshBuilder) (curProps : Props) (group : SymmetryGroup)
    (curMesh : Mesh) (locIt : LocIter) (curConfId : Nat)
    (structureRef : Option Nat) (values : Values) (patch : PropsPatch) :
    MeshUpdateResult :=
  meshUpdateCore b (bindStructure (mergeProps curProps patch) structureRef) curProps
    group curMesh locIt curConfId structureRef values

/-- The update-path wrapper: `if (!renderObject) return`, then run
`update` on the closure variables and commit the results. -/
def meshUpdateStep (b : MeshBuilder) (s : MeshVisualState) (adopted : Bool)
    (patch : PropsPatch) : MeshVisualState × CallInfo :=
  match s.renderObject with
  | none =>
    (s, { path := CallPath.updatePath, flags := VisualUpdateState.reset
          builderInvoked := false, adopted := adopted })
  | some ro =>
    let r := meshUpdate b (s.currentProps.getD b.defaultProps)
               (s.currentGroup.getD defaultGroup) (s.mesh.getD Mesh.createEmpty)
               (s.locationIt.getD ⟨0, 0⟩) (s.currentConformationId.getD 0)
               s.currentStructure ro.values patch
    ({ s with renderObject := some { ro with values := r.values, rstate := r.rstate }
              currentProps := some r.props
              mesh := some r.mesh
              locationIt := some r.locIt
              currentConformationId := some r.confId },
     { path := CallPath.updatePath, flags := r.flags
       builderInvoked := r.builderInvoked, adopted := adopted })

/-- The branch structure of `createOrUpdate` once a new group was
supplied (`currentStructure` already rebound by the caller): create when
there is no current group or no render object yet, create when the hash
codes differ, otherwise adopt-if-new-conformation and update. -/
def meshCreateOrUpdateWith (b : MeshBuilder) (s : MeshVisualState) (patch : PropsPatch)
    (g : SymmetryGroup) : MeshVisualState × Except String CallInfo :=
  match s.currentGroup, s.renderObject with
  | none, _ =>
    let r := meshCreate b s g patch
    (r.1, Except.ok r.2)
  | some _, none =>
    let r := meshCreate b s g patch
    (r.1, Except.ok r.2)
  | some cur, some _ =>
    if g.hashCode ≠ cur.hashCode then
      let r := meshCreate b s g patch
      (r.1, Except.ok r.2)
    else
      let sAdopt : MeshVisualState × Bool :=
        if ¬ sameGroupConformation g cur then
          ({ s with currentGroup := some g }, true)
        else (s, false)
      let r := meshUpdateStep b sAdopt.1 sAdopt.2 patch
      (r.1, Except.ok r.2)

/-- `createOrUpdate` (units-visual.ts lines 138-157).  Always returns the
resulting closure state; the `Except` carries the thrown error or the call
info.  The `'missing group'` throw happens before any state mutation (the
`currentStructure` assignment only runs when a structure group was
supplied, which never holds on the throwing path). -/
def meshCreateOrUpdate (b : MeshBuilder) (s : MeshVisualState) (patch : PropsPatch)
    (sg : Option StructureGroup) : MeshVisualState × Except String CallInfo :=
  match sg with
  | some x =>
    meshCreateOrUpdateWith b { s with currentStructure := some x.structureRef } patch x.group
  | none =>
    match s.currentGroup with
    | none => (s, Except.error "missing group")
    | some _ =>
      let r := meshUpdateStep b s false patch
      (r.1, Except.ok r.2)

/-- `mark` (units-visual.ts lines 161-182).  The builder's `mark` is
modelled through `markIntervals`: each listed interval is applied in order
and the per-application change results are OR-ed, matching the way the
concrete builders thread the `apply` callback. -/
def meshMark (b : MeshBuilder) (s : MeshVisualState) (loci : Loci)
    (action : Nat → Nat) : MeshVisualState × Bool :=
  match s.renderObject with
  | none => (s, false)
  | some ro =>
    let it := s.locationIt.getD ⟨0, 0⟩
    let arr := ro.values.marker
    let res : List Nat × Bool :=
      if isEveryLoci loci then
        applyMarkerAction arr 0 (it.groupCount * it.instanceCount) action
      else
        (b.markIntervals loci (s.currentGroup.getD defaultGroup)).foldl
          (fun acc iv =>
            let a2 := applyMarkerAction acc.1 iv.1 iv.2 action
            (a2.1, acc.2 || a2.2))
          (arr, false)
    let newValues :=
      if res.2 then
        { ro.values with marker := res.1, markerVersion := ro.values.markerVersion + 1 }
      else
        { ro.values with marker := res.1 }
    ({ s with renderObject := some { ro with values := newValues } }, res.2)

/-- `UnitsPointVisualBuilder`. -/
structure PointsBuilder where
  defaultProps : Props
  createPoints : MUnit → Option Nat → Props → Option Points → Points
  createLocationIterator : SymmetryGroup → LocIter
  setUpdateState : VisualUpdateState → Props → Props → VisualUpdateState
  markIntervals : Loci → SymmetryGroup → List (Nat × Nat)

/-- The closure state of one `UnitsPointsVisual` instance. -/
structure PointsVisualState where
  renderObject : Option RenderObject
  currentProps : Option Props
  points : Option Points
  currentGroup : Option SymmetryGroup
  currentStructure : Option Nat
  locationIt : Option LocIter
  currentConformationId : Option Nat
deriving DecidableEq, Repr

def PointsVisualState.init : PointsVisualState := ⟨none, none, none, none, none, none, none⟩

/-- Points `create` (units-visual.ts lines 219-233). -/
def pointsCreate (b : PointsBuilder) (s : PointsVisualState) (g : SymmetryGroup)
    (patch : PropsPatch) : PointsVisualState × CallInfo :=
  let props := bindStructure (mergeProps b.defaultProps patch) s.currentStructure
  let unit := repUnit g
  let confId := unit.conformationId
  let invoked := decide (unit.kind ∈ props.unitKinds)
  let pts := if unit.kind ∈ props.unitKinds
             then b.createPoints unit s.currentStructure props s.points
             else Points.createEmpty
  let it := b.createLocationIterator g
  let ro := createUnitsPointsRenderObject g pts it props
  ({ renderObject := some ro
     currentProps := some props
     points := some pts
     currentGroup := some g
     currentStructure := s.currentStructure
     locationIt := some it
     currentConformationId := some confId },
   { path := CallPath.createPath, flags := VisualUpdateState.reset
     builderInvoked := invoked, adopted := false })

/-- The universal diff rules of the points `update` (units-visual.ts
lines 246-256): identical to the mesh rules except that a size-theme
change sets `updateSize` instead of `createGeometry`. -/
def pointsUniversalDiff (st : VisualUpdateState) (newProps curProps : Props)
    (newConfId curConfId : Nat) (groupUnitCount itInstanceCount : Nat) :
    VisualUpdateState :=
  let st := if newConfId ≠ curConfId then { st with createGeometry := true } else st
  let st := if groupUnitCount ≠ itInstanceCount then { st with updateTransform := true } else st
  let st := if newProps.sizeTheme ≠ curProps.sizeTheme then { st with updateSize := true } else st
  let st := if newProps.colorTheme ≠ curProps.colorTheme then { st with updateColor := true } else st
  let st := if newProps.unitKinds ≠ curProps.unitKinds then { st with createGeometry := true } else st
  st

/-- Result of one points `update` pass. -/
structure PointsUpdateResult where
  values : Values
  rstate : Props
  props : Props
  points : Points
  locIt : LocIter
  confId : Nat
  flags : VisualUpdateState
  builderInvoked : Bool
deriving Repr

/-- The body of the points `update` after the merged `newProps` have
been computed (units-visual.ts lines 240-288). -/
def pointsUpdateCore (b : PointsBuilder) (newProps curProps : Props) (group : SymmetryGroup)
    (curPoints : Points) (locIt : LocIter) (curConfId : Nat)
    (structureRef : Option Nat) (values : Values) :
    PointsUpdateResult :=
  let unit := repUnit group
  let st := b.setUpdateState VisualUpdateState.reset newProps curProps
  let newConfId := unit.conformationId
  let st := pointsUniversalDiff st newProps curProps newConfId curConfId
              group.units.length locIt.instanceCount
  let step1 : LocIter × Values × VisualUpdateState :=
    if st.updateTransform then
      let it := b.createLocationIterator group
      (it, createMarkers (it.instanceCount * it.groupCount) (createUnitsTransform group values),
       { st with updateColor := true })
    else (locIt, values, st)
  let locIt2 := step1.1
  let values := step1.2.1
  let st := step1.2.2
  let step2 : Points × Values × VisualUpdateState × Bool :=
    if st.createGeometry then
      let pts := if unit.kind ∈ newProps.unitKinds
                 then b.createPoints unit structureRef newProps (some curPoints)
                 else Points.createEmpty
      (pts, { values with drawCount := pts.pointCount },
       { st with updateColor := true }, decide (unit.kind ∈ newProps.unitKinds))
    else (curPoints, values, st, false)
  let pts2 := step2.1
  let values := step2.2.1
  let st := step2.2.2.1
  let invoked := step2.2.2.2
  let values := if st.updateSize then createSizes locIt2 newProps.sizeTheme values else values
  let values := if st.updateColor then createColors locIt2 newProps.colorTheme values else values
  let values := { values with themeValues := newProps }
  { values := values, rstate := newProps, props := newProps, points := pts2
    locIt := locIt2, confId := newConfId, flags := st, builderInvoked := invoked }

/-- Points `update` (units-visual.ts lines 235-289). -/
def pointsUpdate (b : PointsBuilder) (curProps : Props) (group : SymmetryGroup)
    (curPoints : Points) (locIt : LocIter) (curConfId : Nat)
    (structureRef : Option Nat) (values : Values) (patch : PropsPatch) :
    PointsUpdateResult :=
  pointsUpdateCore b (bindStructure (mergeProps curProps patch) structureRef) curProps
    group curPoints locIt curConfId structureRef values

/-- Points update-path wrapper. -/
def pointsUpdateStep (b : PointsBuilder) (s : PointsVisualState) (adopted : Bool)
    (patch : PropsPatch) : PointsVisualState × CallInfo :=
  match s.renderObject with
  | none =>
    (s, { path := CallPath.updatePath, flags := VisualUpdateState.reset
          builderInvoked := false, adopted := adopted })
  | some ro =>
    let r := pointsUpdate b (s.currentProps.getD b.defaultProps)
               (s.currentGroup.getD defaultGroup) (s.points.getD Points.createEmpty)
               (s.locationIt.getD ⟨0, 0⟩) (s.currentConformationId.getD 0)
               s.currentStructure ro.values patch
    ({ s with renderObject := some { ro with values := r.values, rstate := r.rstate }
              currentProps := some r.props
              points := some r.points
              locationIt := some r.locIt
              currentConformationId := some r.confId },
     { path := CallPath.updatePath, flags := r.flags
       builderInvoked := r.builderInvoked, adopted := adopted })

/-- Points analogue of `meshCreateOrUpdateWith`. -/
def pointsCreateOrUpdateWith (b : PointsBuilder) (s : PointsVisualState) (patch : PropsPatch)
    (g : SymmetryGroup) : PointsVisualState × Except String CallInfo :=
  match s.currentGroup, s.renderObject with
  | none, _ =>
    let r := pointsCreate b s g patch
    (r.1, Except.ok r.2)
  | some _, none =>
    let r := pointsCreate b s g patch
    (r.1, Except.ok r.2)
  | some cur, some _ =>
    if g.hashCode ≠ cur.hashCode then
      let r := pointsCreate b s g patch
      (r.1, Except.ok r.2)
    else
      let sAdopt : PointsVisualState × Bool :=
        if ¬ sameGroupConformation g cur then
          ({ s with currentGroup := some g }, true)
        else (s, false)
      let r := pointsUpdateStep b sAdopt.1 sAdopt.2 patch
      (r.1, Except.ok r.2)

/-- Points `createOrUpdate` (units-visual.ts lines 293-312). -/
def pointsCreateOrUpdate (b : PointsBuilder) (s : PointsVisualState) (patch : PropsPatch)
    (sg : Option StructureGroup) : PointsVisualState × Except String CallInfo :=
  match sg with
  | some x =>
    pointsCreateOrUpdateWith b { s with currentStructure := some x.structureRef } patch x.group
  | none =>
    match s.currentGroup with
    | none => (s, Except.error "missing group")
    | some _ =>
      let r := pointsUpdateStep b s false patch
      (r.1, Except.ok r.2)

/-- `UnitsLinesVisualBuilder`. -/
structure LinesBuilder where
  defaultProps : Props
  createLines : MUnit → Option Nat → Props → Option Lines → Lines
  createLocationIterator : SymmetryGroup → LocIter
  setUpdateState : VisualUpdateState → Props → Props → VisualUpdateState
  markIntervals : Loci → SymmetryGroup → List (Nat × Nat)

/-- The closure state of one `UnitsLinesVisual` instance. -/
structure LinesVisualState where
  renderObject : Option RenderObject
  currentProps : Option Props
  lines : Option Lines
  currentGroup : Option SymmetryGroup
  currentStructure : Option Nat
  locationIt : Option LocIter
  currentConformationId : Option Nat
deriving DecidableEq, Repr

def LinesVisualState.init : LinesVisualState := ⟨none, none, none, none, none, none, none⟩

/-- Lines `create` (units-visual.ts lines 374-388). -/
def linesCreate (b : LinesBuilder) (s : LinesVisualState) (g : SymmetryGroup)
    (patch : PropsPatch) : LinesVisualState × CallInfo :=
  let props := bindStructure (mergeProps b.defaultProps patch) s.currentStructure
  let unit := repUnit g
  let confId := unit.conformationId
  let invoked := decide (unit.kind ∈ props.unitKinds)
  let ls := if unit.kind ∈ props.unitKinds
            then b.createLines unit s.currentStructure props s.lines
            else Lines.createEmpty
  let it := b.createLocationIterator g
  let ro := createUnitsLinesRenderObject g ls it props
  ({ renderObject := some ro
     currentProps := some props
     lines := some ls
     currentGroup := some g
     currentStructure := s.currentStructure
     locationIt := some it
     currentConformationId := some confId },
   { path := CallPath.createPath, flags := VisualUpdateState.reset
     builderInvoked := invoked, adopted := false })

/-- The universal diff rules of the lines `update` (units-visual.ts lines
401-411): textually identical to the points rules. -/
def linesUniversalDiff (st : VisualUpdateState) (newProps curProps : Props)
    (newConfId curConfId : Nat) (groupUnitCount itInstanceCount : Nat) :
    VisualUpdateState :=
  let st := if newConfId ≠ curConfId then { st with createGeometry := true } else st
  let st := if groupUnitCount ≠ itInstanceCount then { st with updateTransform := true } else st
  let st := if newProps.sizeTheme ≠ curProps.sizeTheme then { st with updateSize := true } else st
  let st := if newProps.colorTheme ≠ curProps.colorTheme then { st with updateColor := true } else st
  let st := if newProps.unitKinds ≠ curProps.unitKinds then { st with createGeometry := true } else st
  st

/-- Result of one lines `update` pass. -/
structure LinesUpdateResult where
  values : Values
  rstate : Props
  props : Props
  lines : Lines
  locIt : LocIter
  confId : Nat
  flags : VisualUpdateState
  builderInvoked : Bool
deriving Repr

/-- The body of the lines `update` after the merged `newProps` have been
computed (units-visual.ts lines 395-443). -/
def linesUpdateCore (b : LinesBuilder) (newProps curProps : Props) (group : SymmetryGroup)
    (curLines : Lines) (locIt : LocIter) (curConfId : Nat)
    (structureRef : Option Nat) (values : Values) :
    LinesUpdateResult :=
  let unit := repUnit group
  let st := b.setUpdateState VisualUpdateState.reset newProps curProps
  let newConfId := unit.conformationId
  let st := linesUniversalDiff st newProps curProps newConfId curConfId
              group.units.length locIt.instanceCount
  let step1 : LocIter × Values × VisualUpdateState :=
    if st.updateTransform then
      let it := b.createLocationIterator group
      (it, createMarkers (it.instanceCount * it.groupCount) (createUnitsTransform group values),
       { st with updateColor := true })
    else (locIt, values, st)
  let locIt2 := step1.1
  let values := step1.2.1
  let st := step1.2.2
  let step2 : Lines × Values × VisualUpdateState × Bool :=
    if st.createGeometry then
      let ls := if unit.kind ∈ newProps.unitKinds
                then b.createLines unit structureRef newProps (some curLines)
                else Lines.createEmpty
      (ls, { values with drawCount := ls.lineCount },
       { st with updateColor := true }, decide (unit.kind ∈ newProps.unitKinds))
    else (curLines, values, st, false)
  let ls2 := step2.1
  let values := step2.2.1
  let st := step2.2.2.1
  let invoked := step2.2.2.2
  let values := if st.updateSize then createSizes locIt2 newProps.sizeTheme values else values
  let values := if st.updateColor then createColors locIt2 newProps.colorTheme values else values
  let values := { values with themeValues := newProps }
  { values := values, rstate := newProps, props := newProps, lines := ls2
    locIt := locIt2, confId := newConfId, flags := st, builderInvoked := invoked }

/-- Lines `update` (units-visual.ts lines 390-444). -/
def linesUpdate (b : LinesBuilder) (curProps : Props) (group : SymmetryGroup)
    (curLines : Lines) (locIt : LocIter) (curConfId : Nat)
    (structureRef : Option Nat) (values : Values) (patch : PropsPatch) :
    LinesUpdateResult :=
  linesUpdateCore b (bindStructure (mergeProps curProps patch) structureRef) curProps
    group curLines locIt curConfId structureRef values

/-- Lines update-path wrapper. -/
def linesUpdateStep (b : LinesBuilder) (s : LinesVisualState) (adopted : Bool)
    (patch : PropsPatch) : LinesVisualState × CallInfo :=
  match s.renderObject with
  | none =>
    (s, { path := CallPath.updatePath, flags := VisualUpdateState.reset
          builderInvoked := false, adopted := adopted })
  | some ro =>
    let r := linesUpdate b (s.currentProps.getD b.defaultProps)
               (s.currentGroup.getD defaultGroup) (s.lines.getD Lines.createEmpty)
               (s.locationIt.getD ⟨0, 0⟩) (s.currentConformationId.getD 0)
               s.currentStructure ro.values patch
    ({ s with renderObject := some { ro with values := r.values, rstate := r.rstate }
              currentProps := some r.props
              lines := some r.lines
              locationIt := some r.locIt
              currentConformationId := some r.confId },
     { path := CallPath.updatePath, flags := r.flags
       builderInvoked := r.builderInvoked, adopted := adopted })

/-- Lines analogue of `meshCreateOrUpdateWith`. -/
def linesCreateOrUpdateWith (b : LinesBuilder) (s : LinesVisualState) (patch : PropsPatch)
    (g : SymmetryGroup) : LinesVisualState × Except String CallInfo :=
  match s.currentGroup, s.renderObject with
  | none, _ =>
    let r := linesCreate b s g patch
    (r.1, Except.ok r.2)
  | some _, none =>
    let r := linesCreate b s g patch
    (r.1, Except.ok r.2)
  | some cur, some _ =>
    if g.hashCode ≠ cur.hashCode then
      let r := linesCreate b s g patch
      (r.1, Except.ok r.2)
    else
      let sAdopt : LinesVisualState × Bool :=
        if ¬ sameGroupConformation g cur then
          ({ s with currentGroup := some g }, true)
        else (s, false)
      let r := linesUpdateStep b sAdopt.1 sAdopt.2 patch
      (r.1, Except.ok r.2)

/-- Lines `createOrUpdate` (units-visual.ts lines 448-467). -/
def linesCreateOrUpdate (b : LinesBuilder) (s : LinesVisualState) (patch : PropsPatch)
    (sg : Option StructureGroup) : LinesVisualState × Except String CallInfo :=
  match sg with
  | some x =>
    linesCreateOrUpdateWith b { s with currentStructure := some x.structureRef } patch x.group
  | none =>
    match s.currentGroup with
    | none => (s, Except.error "missing group")
    | some _ =>
      let r := linesUpdateStep b s false patch
      (r.1, Except.ok r.2)

/-! Concrete fixtures used by counterexamples and witnesses. -/

def exProps : Props :=
  { sizeTheme := 1, colorTheme := ⟨2, none⟩
    unitKinds := [UnitKind.atomic, UnitKind.spheres], builderProps := 0 }

def exMeshBuilder : MeshBuilder :=
  { defaultProps := exProps
    createMesh := fun u _ p _ => ⟨u.conformationId + p.builderProps + 1, 7⟩
    createLocationIterator := fun g => ⟨3, g.units.length⟩
    setUpdateState := fun st _ _ => st
    markIntervals := fun _ _ => [] }

def exPointsBuilder : PointsBuilder :=
  { defaultProps := exProps
    createPoints := fun u _ p _ => ⟨u.conformationId + p.builderProps + 1, 7⟩
    createLocationIterator := fun g => ⟨3, g.units.length⟩
    setUpdateState := fun st _ _ => st
    markIntervals := fun _ _ => [] }

def exLinesBuilder : LinesBuilder :=
  { defaultProps := exProps
    createLines := fun u _ p _ => ⟨u.conformationId + p.builderProps + 1, 7⟩
    createLocationIterator := fun g => ⟨3, g.units.length⟩
    setUpdateState := fun st _ _ => st
    markIntervals := fun _ _ => [] }

/-- Two atomic units sharing conformation 7. -/
def exGroupA : SymmetryGroup :=
  ⟨0, 5, [⟨UnitKind.atomic, 7, 11⟩, ⟨UnitKind.atomic, 7, 12⟩]⟩

/-- A different group object (`objId` 1) with the same hash code, the
same unit count and the same first-unit conformation id as `exGroupA`. -/
def exGroupB : SymmetryGroup :=
  ⟨1, 5, [⟨UnitKind.atomic, 7, 11⟩, ⟨UnitKind.atomic, 7, 12⟩]⟩

/-- Same hash code and unit count as `exGroupA`, different conformation. -/
def exGroupD : SymmetryGroup :=
  ⟨3, 5, [⟨UnitKind.atomic, 99, 11⟩, ⟨UnitKind.atomic, 99, 12⟩]⟩

/-- A group with a different hash code. -/
def exGroupC : SymmetryGroup := ⟨2, 9, [⟨UnitKind.atomic, 8, 11⟩]⟩

/-- A single-unit group whose representative unit is of kind Spheres. -/
def exGroupS : SymmetryGroup := ⟨4, 13, [⟨UnitKind.spheres, 21, 11⟩]⟩

/-- Same hash code, unit count and first-unit conformation as
`exGroupA`, but a different second-unit conformation (50). -/
def exGroupX : SymmetryGroup :=
  ⟨7, 5, [⟨UnitKind.atomic, 7, 11⟩, ⟨UnitKind.atomic, 50, 12⟩]⟩

/-- Like `exGroupX` but with second-unit conformation 60. -/
def exGroupY : SymmetryGroup :=
  ⟨8, 5, [⟨UnitKind.atomic, 7, 11⟩, ⟨UnitKind.atomic, 60, 12⟩]⟩

/-- The render object held in `exState1`, written out. -/
def exRO1 : RenderObject :=
  { id := 0
    values := { drawCount := 24
                transform := [11, 12]
                marker := [0, 0, 0, 0, 0, 0]
                markerVersion := 0
                color := (⟨3, 2⟩, ⟨2, some 42⟩)
                size := (⟨0, 0⟩, 0)
                themeValues := ⟨1, ⟨2, some 42⟩, [UnitKind.atomic, UnitKind.spheres], 0⟩ }
    rstate := ⟨1, ⟨2, some 42⟩, [UnitKind.atomic, UnitKind.spheres], 0⟩ }

/-- `exRO1` after every-loci marking with the increment action. -/
def exRO1marked : RenderObject :=
  { exRO1 with values :=
      { exRO1.values with marker := [1, 1, 1, 1, 1, 1], markerVersion := 1 } }

/-- Engine state after a first successful create with `exGroupA`. -/
def exState1 : MeshVisualState :=
  (meshCreateOrUpdate exMeshBuilder MeshVisualState.init {} (some ⟨42, exGroupA⟩)).1

end UnitsVisual

namespace UnitsVisual

/-! Basic lemmas about the embedded operations. -/

@[simp]
theorem bindStructure_sizeTheme (p : Props) (s : Option Nat) :
    (bindStructure p s).sizeTheme = p.sizeTheme := rfl

@[simp]
theorem bindStructure_unitKinds (p : Props) (s : Option Nat) :
    (bindStructure p s).unitKinds = p.unitKinds := rfl

@[simp]
theorem bindStructure_builderProps (p : Props) (s : Option Nat) :
    (bindStructure p s).builderProps = p.builderProps := rfl

/-- Re-merging the same patch into an already merged-and-bound property
bag is the identity: the basis of update idempotence. -/
theorem merge_bind_idem (d : Props) (p : PropsPatch) (st : Option Nat) :
    bindStructure (mergeProps (bindStructure (mergeProps d p) st) p) st =
      bindStructure (mergeProps d p) st := by
  rcases p with ⟨ps, pc, pk, pb⟩
  cases ps <;> cases pc <;> cases pk <;> cases pb <;> rfl

/-- A group has the same conformation as itself. -/
theorem sameGroupConformation_self (g : SymmetryGroup) :
    sameGroupConformation g g = true := by
  simp [sameGroupConformation]

theorem mapWithIndex_getElem? (f : Nat → Nat → Nat) (k : Nat) (l : List Nat) (i : Nat) :
    (mapWithIndex f k l)[i]? = (l[i]?).map (f (k + i)) := by
  induction l generalizing k i with
  | nil => simp [mapWithIndex]
  | cons a tl ih =>
    cases i with
    | zero => simp [mapWithIndex]
    | succ j =>
      simp only [mapWithIndex, List.getElem?_cons_succ]
      have h : k + 1 + j = k + (j + 1) := by omega
      rw [ih (k + 1) j, h]

theorem applyIntervalAction_getElem? (arr : List Nat) (n : Nat) (action : Nat → Nat)
    (i : Nat) :
    (applyIntervalAction arr 0 n action)[i]? =
      (arr[i]?).map (fun bVal => if i < n then action bVal else bVal) := by
  rw [applyIntervalAction, mapWithIndex_getElem?]
  cases arr[i]? <;> simp

theorem meshUniversalDiff_self (st : VisualUpdateState) (p : Props) (conf len inst : Nat) :
    meshUniversalDiff st p p conf conf len inst =
      (if len = inst then st else { st with updateTransform := true }) := by
  by_cases h : len = inst <;> simp [meshUniversalDiff, h]

theorem meshUpdateCore_stable (b : MeshBuilder) (props : Props) (g : SymmetryGroup)
    (m : Mesh) (it : LocIter) (str : Option Nat) (v : Values)
    (hset : b.setUpdateState VisualUpdateState.reset props props = VisualUpdateState.reset)
    (hit : b.createLocationIterator g = it)
    (htrans : v.transform = g.units.map (fun u => u.transform))
    (hmark : v.marker = List.replicate (it.instanceCount * it.groupCount) 0)
    (hcolor : v.color = (it, props.colorTheme))
    (htheme : v.themeValues = props) :
    meshUpdateCore b props props g m it ((repUnit g).conformationId) str v =
      { values := v
        rstate := props
        props := props
        mesh := m
        locIt := it
        confId := (repUnit g).conformationId
        flags := if g.units.length = it.instanceCount then VisualUpdateState.reset
                 else { createGeometry := false, updateColor := true
                        updateSize := false, updateTransform := true }
        builderInvoked := false } := by
  have hv0 : ({ v with themeValues := props } : Values) = v := by rw [← htheme]
  have hv1 : ({ v with
      transform := g.units.map (fun u => u.transform)
      marker := List.replicate (it.instanceCount * it.groupCount) 0
      color := (it, props.colorTheme)
      themeValues := props } : Values) = v := by
    rw [← htrans, ← hmark, ← hcolor, ← htheme]
  by_cases hlen : g.units.length = it.instanceCount
  · simp only [meshUpdateCore, hset, meshUniversalDiff_self, if_pos hlen]
    simp [VisualUpdateState.reset, hv0]
  · simp only [meshUpdateCore, hset, meshUniversalDiff_self, if_neg hlen]
    simp only [createMarkers, createUnitsTransform, createColors, hit]
    simp [VisualUpdateState.reset, hv1]

end UnitsVisual

namespace UnitsVisual

/-- C2: after a first successful call, repeating `createOrUpdate` with
the identical `(props, structureGroup)` takes the update path, keeps the
`createGeometry` flag false (for a builder whose `setUpdateState` sets
no flags on equal props), never invokes the geometry builder, and leaves
the engine state — in particular every buffer of the render object's
values — unchanged. -/
theorem c2_idempotent (b : MeshBuilder) (patch : PropsPatch) (sg : StructureGroup)
    (hset : ∀ p : Props,
      b.setUpdateState VisualUpdateState.reset p p = VisualUpdateState.reset) :
    ∃ info, (meshCreateOrUpdate b (meshCreateOrUpdate b MeshVisualState.init patch (some sg)).1
        patch (some sg)).2 = Except.ok info ∧
      info.path = CallPath.updatePath ∧
      info.flags.createGeometry = false ∧
      info.builderInvoked = false ∧
      (meshCreateOrUpdate b (meshCreateOrUpdate b MeshVisualState.init patch (some sg)).1
        patch (some sg)).1 = (meshCreateOrUpdate b MeshVisualState.init patch (some sg)).1 := by
  have hprops := merge_bind_idem b.defaultProps patch (some sg.structureRef)
  set P := bindStructure (mergeProps b.defaultProps patch) (some sg.structureRef) with hP
  set IT := b.createLocationIterator sg.group with hIT
  set M := (if (repUnit sg.group).kind ∈ P.unitKinds then
      b.createMesh (repUnit sg.group) (some sg.structureRef) P none
    else Mesh.createEmpty) with hM
  set RO := createUnitsMeshRenderObject sg.group M IT P with hRO
  have hs1 : (meshCreateOrUpdate b MeshVisualState.init patch (some sg)).1 =
      ⟨some RO, some P, some M, some sg.group, some sg.structureRef, some IT,
        some (repUnit sg.group).conformationId⟩ := rfl
  rw [hs1]
  have hne : ¬ (sg.group.hashCode ≠ sg.group.hashCode) := fun h => h rfl
  have hcs : ¬ ¬ (sameGroupConformation sg.group sg.group = true) :=
    fun hn => hn (sameGroupConformation_self sg.group)
  simp only [meshCreateOrUpdate, meshCreateOrUpdateWith, if_neg hne, if_neg hcs,
    meshUpdateStep, meshUpdate, Option.getD]
  rw [hprops]
  rw [meshUpdateCore_stable b P sg.group M IT (some sg.structureRef) RO.values
    (hset P) hIT.symm rfl rfl rfl rfl]
  refine ⟨_, rfl, rfl, ?_, rfl, ?_⟩
  · by_cases hlen : sg.group.units.length = IT.instanceCount <;>
      simp [hlen, VisualUpdateState.reset]
  · rfl

/-- C2 witness: repeating the concrete first call with identical
arguments leaves the engine state (and thus every render-object buffer)
unchanged. -/
theorem c2_idempotent_witness :
    (meshCreateOrUpdate exMeshBuilder exState1 {} (some ⟨42, exGroupA⟩)).1 = exState1 := by
  obtain ⟨info, -, -, -, -, hstate⟩ :=
    c2_idempotent exMeshBuilder {} ⟨42, exGroupA⟩ (fun p => rfl)
  exact hstate

/-! Claim C9: the missing-group error. -/

/-- C9: `createOrUpdate` fails with the missing-group error exactly when
it is called with no structure-group argument while no current group
exists; the error is surfaced to the caller and the engine's prior state
(all closure variables) is left entirely unchanged. -/
theorem c9_missing_group (b : MeshBuilder) (s : MeshVisualState) (patch : PropsPatch)
    (sg : Option StructureGroup) :
    ((meshCreateOrUpdate b s patch sg).2 = Except.error "missing group" ↔
      sg = none ∧ s.currentGroup = none) ∧
    (sg = none ∧ s.currentGroup = none → (meshCreateOrUpdate b s patch sg).1 = s) := by
  rcases s with ⟨ro, cp, cm, cg, cs, ci, cc⟩
  cases sg with
  | none =>
    cases cg with
    | none => simp [meshCreateOrUpdate]
    | some cur =>
      cases ro <;> simp [meshCreateOrUpdate, meshUpdateStep]
  | some x =>
    cases cg with
    | none => simp [meshCreateOrUpdate, meshCreateOrUpdateWith, meshCreate]
    | some cur =>
      cases ro with
      | none => simp [meshCreateOrUpdate, meshCreateOrUpdateWith, meshCreate]
      | some r =>
        by_cases h : x.group.hashCode = cur.hashCode <;>
          simp [meshCreateOrUpdate, meshCreateOrUpdateWith, meshCreate, meshUpdateStep, h]

/-- C9 witness: at a concrete input with neither an existing nor a new
group, the call errors and the state is untouched. -/
theorem c9_missing_group_witness :
    (meshCreateOrUpdate exMeshBuilder MeshVisualState.init {} none).2 =
      Except.error "missing group" ∧
    (meshCreateOrUpdate exMeshBuilder MeshVisualState.init {} none).1 =
      MeshVisualState.init :=
  ⟨(c9_missing_group exMeshBuilder MeshVisualState.init {} none).1.mpr ⟨rfl, rfl⟩,
   (c9_missing_group exMeshBuilder MeshVisualState.init {} none).2 ⟨rfl, rfl⟩⟩

/-! Claim C1: adoption of a same-hash group in the update path. -/

/-- C1 counterexample: `exGroupB` is a different group object with the
same hash code as the current group `exGroupA` (and the same unit count
and first-unit conformation id).  The engine does NOT adopt it: the call
takes the update path with `adopted = false` and `currentGroup` remains
`exGroupA`, refuting "adopt ... for every such supplied group". -/
theorem c1_not_every_group_adopted :
    exGroupB ≠ exGroupA ∧
    exGroupB.hashCode = exGroupA.hashCode ∧
    exState1.currentGroup = some exGroupA ∧
    (meshCreateOrUpdate exMeshBuilder exState1 {} (some ⟨42, exGroupB⟩)).2 =
      Except.ok { path := CallPath.updatePath, flags := VisualUpdateState.reset
                  builderInvoked := false, adopted := false } ∧
    (meshCreateOrUpdate exMeshBuilder exState1 {} (some ⟨42, exGroupB⟩)).1.currentGroup =
      some exGroupA := by
  decide

/-- C1 (amended): in the update path (render object present, supplied
group with the current group's hash code), the engine adopts the supplied
group as current before running the update exactly when
`sameGroupConformation` fails, i.e. when the supplied group differs from
the current one in unit count or in its first unit's conformation id; a
different group object that agrees in both is not adopted. -/
theorem c1_adoption (b : MeshBuilder) (s : MeshVisualState) (patch : PropsPatch)
    (str : Nat) (g cur : SymmetryGroup)
    (hcur : s.currentGroup = some cur) (hro : s.renderObject.isSome = true)
    (hhash : g.hashCode = cur.hashCode) :
    ∃ info, (meshCreateOrUpdate b s patch (some ⟨str, g⟩)).2 = Except.ok info ∧
      info.path = CallPath.updatePath ∧
      info.adopted = !sameGroupConformation g cur ∧
      (meshCreateOrUpdate b s patch (some ⟨str, g⟩)).1.currentGroup =
        some (if sameGroupConformation g cur then cur else g) := by
  rcases s with ⟨ro, cp, cm, cg, cs, ci, cc⟩
  rcases ro with _ | r
  · simp at hro
  simp only [MeshVisualState.currentGroup] at hcur
  subst hcur
  by_cases hconf : sameGroupConformation g cur <;>
    simp [meshCreateOrUpdate, meshCreateOrUpdateWith, meshUpdateStep, hhash, hconf]

/-- C1 amended-claim witness: a same-hash group with a different first
conformation id is adopted. -/
theorem c1_adoption_witness :
    (meshCreateOrUpdate exMeshBuilder exState1 {} (some ⟨42, exGroupD⟩)).1.currentGroup =
      some exGroupD := by
  obtain ⟨info, -, -, -, hcg⟩ :=
    c1_adoption exMeshBuilder exState1 {} 42 exGroupD exGroupA (by decide) (by decide)
      (by decide)
  rw [hcg]
  decide

/-! Claim C3: a hash-code change always forces the create path. -/

/-- C3: for any two groups with different hash codes, calling
`createOrUpdate` first with A (create) and then with B takes the full
create path on the second call — the resulting state is exactly the one
produced by `create` from B (fresh geometry, fresh location iterator,
fresh render object), never the update path. -/
theorem c3_hash_change_creates (b : MeshBuilder) (p1 p2 : PropsPatch)
    (sgA sgB : StructureGroup)
    (h : sgA.group.hashCode ≠ sgB.group.hashCode) :
    (∃ i1, (meshCreateOrUpdate b MeshVisualState.init p1 (some sgA)).2 = Except.ok i1 ∧
      i1.path = CallPath.createPath) ∧
    (∃ i2, (meshCreateOrUpdate b (meshCreateOrUpdate b MeshVisualState.init p1 (some sgA)).1
        p2 (some sgB)).2 = Except.ok i2 ∧ i2.path = CallPath.createPath) ∧
    (meshCreateOrUpdate b (meshCreateOrUpdate b MeshVisualState.init p1 (some sgA)).1
        p2 (some sgB)).1 =
      (meshCreate b { (meshCreateOrUpdate b MeshVisualState.init p1 (some sgA)).1 with
          currentStructure := some sgB.structureRef } sgB.group p2).1 := by
  have hne : ¬ (sgB.group.hashCode = sgA.group.hashCode) := fun hh => h hh.symm
  have hs1 : (meshCreateOrUpdate b MeshVisualState.init p1 (some sgA)).1 =
      (meshCreate b { MeshVisualState.init with
        currentStructure := some sgA.structureRef } sgA.group p1).1 := rfl
  refine ⟨⟨_, rfl, rfl⟩, ?_, ?_⟩ <;>
    rw [hs1] <;>
    simp [meshCreateOrUpdate, meshCreateOrUpdateWith, meshCreate, hne]

/-- C3 witness: concrete groups with different hash codes. -/
theorem c3_hash_change_creates_witness :
    (meshCreateOrUpdate exMeshBuilder exState1 {} (some ⟨42, exGroupC⟩)).1 =
      (meshCreate exMeshBuilder { exState1 with currentStructure := some 42 }
        exGroupC {}).1 := by
  have h := c3_hash_change_creates exMeshBuilder {} {} ⟨42, exGroupA⟩ ⟨42, exGroupC⟩
    (by decide)
  exact h.2.2

theorem meshUniversalDiff_createGeometry_of_conf (st : VisualUpdateState)
    (np cp : Props) (nc cc len inst : Nat) (h : nc ≠ cc) :
    (meshUniversalDiff st np cp nc cc len inst).createGeometry = true := by
  simp only [meshUniversalDiff]
  rw [if_pos h]
  split_ifs <;> rfl

theorem meshUniversalDiff_updateTransform_of_len (st : VisualUpdateState)
    (np cp : Props) (nc cc len inst : Nat) (h : len = inst) :
    (meshUniversalDiff st np cp nc cc len inst).updateTransform = st.updateTransform := by
  simp only [meshUniversalDiff]
  rw [if_neg (show ¬ (len ≠ inst) from fun hn => hn h)]
  split_ifs <;> rfl

theorem meshUpdateCore_conf_change (b : MeshBuilder) (np cp : Props)
    (g : SymmetryGroup) (m : Mesh) (it : LocIter) (cid : Nat) (str : Option Nat)
    (v : Values)
    (hconf : (repUnit g).conformationId ≠ cid)
    (hlen : g.units.length = it.instanceCount)
    (hset : ∀ (st : VisualUpdateState) (p q : Props),
      (b.setUpdateState st p q).updateTransform = st.updateTransform) :
    (meshUpdateCore b np cp g m it cid str v).flags.createGeometry = true ∧
    (meshUpdateCore b np cp g m it cid str v).flags.updateTransform = false ∧
    (meshUpdateCore b np cp g m it cid str v).locIt = it := by
  have h0 : (b.setUpdateState VisualUpdateState.reset np cp).updateTransform = false := by
    rw [hset]; rfl
  have hd1 := meshUniversalDiff_createGeometry_of_conf
    (b.setUpdateState VisualUpdateState.reset np cp) np cp
    (repUnit g).conformationId cid g.units.length it.instanceCount hconf
  have hd2 := (meshUniversalDiff_updateTransform_of_len
    (b.setUpdateState VisualUpdateState.reset np cp) np cp
    (repUnit g).conformationId cid g.units.length it.instanceCount hlen).trans h0
  simp only [meshUpdateCore]
  simp [hd1, hd2]

/-- C4: supplying a new group with the current group's hash code but a
different representative-unit conformation id takes the update path,
adopts the group, forces `createGeometry = true`, and — when the unit
count is unchanged — leaves the transform flag unset and the location
iterator (hence its `instanceCount`) untouched. -/
theorem c4_conformation_change (b : MeshBuilder) (s : MeshVisualState) (patch : PropsPatch)
    (str : Nat) (g cur : SymmetryGroup) (it : LocIter)
    (hcur : s.currentGroup = some cur) (hro : s.renderObject.isSome = true)
    (hit : s.locationIt = some it)
    (hcid : s.currentConformationId = some (repUnit cur).conformationId)
    (hhash : g.hashCode = cur.hashCode)
    (hconf : (repUnit g).conformationId ≠ (repUnit cur).conformationId)
    (hset : ∀ (st : VisualUpdateState) (p q : Props),
      (b.setUpdateState st p q).updateTransform = st.updateTransform)
    (hlen : g.units.length = cur.units.length)
    (hinst : it.instanceCount = cur.units.length) :
    ∃ info, (meshCreateOrUpdate b s patch (some ⟨str, g⟩)).2 = Except.ok info ∧
      info.path = CallPath.updatePath ∧ info.adopted = true ∧
      info.flags.createGeometry = true ∧ info.flags.updateTransform = false ∧
      (meshCreateOrUpdate b s patch (some ⟨str, g⟩)).1.locationIt = some it := by
  rcases s with ⟨ro, cp, cm, cg, cs, ci, cc⟩
  rcases ro with _ | r
  · simp at hro
  simp only [MeshVisualState.currentGroup] at hcur
  simp only [MeshVisualState.locationIt] at hit
  simp only [MeshVisualState.currentConformationId] at hcid
  subst hcur hit hcid
  have hsgc : sameGroupConformation g cur = false := by
    simp [sameGroupConformation, hconf]
  have hcs : ¬ (sameGroupConformation g cur = true) := by simp [hsgc]
  have hne : ¬ (g.hashCode ≠ cur.hashCode) := fun h => h hhash
  have hcore := meshUpdateCore_conf_change b
    (bindStructure (mergeProps (cp.getD b.defaultProps) patch) (some str))
    (cp.getD b.defaultProps) g (cm.getD Mesh.createEmpty) it
    ((repUnit cur).conformationId) (some str) r.values hconf
    (by omega) hset
  simp only [meshCreateOrUpdate, meshCreateOrUpdateWith, if_neg hne, if_pos hcs,
    meshUpdateStep, meshUpdate, Option.getD_some]
  exact ⟨_, rfl, rfl, rfl, hcore.1, hcore.2.1, by rw [hcore.2.2]⟩


/-- C4 witness: concrete conformation-only change (`exGroupD` vs the
current `exGroupA`): the location iterator is untouched. -/
theorem c4_conformation_change_witness :
    (meshCreateOrUpdate exMeshBuilder exState1 {} (some ⟨42, exGroupD⟩)).1.locationIt =
      some ⟨3, 2⟩ := by
  obtain ⟨info, -, -, -, -, -, hloc⟩ :=
    c4_conformation_change exMeshBuilder exState1 {} 42 exGroupD exGroupA ⟨3, 2⟩
      (by decide) (by decide) (by decide) (by decide) (by decide) (by decide)
      (fun st p q => rfl) (by decide) (by decide)
  exact hloc

theorem meshUniversalDiff_updateTransform_of_ne (st : VisualUpdateState)
    (np cp : Props) (nc cc len inst : Nat) (h : len ≠ inst) :
    (meshUniversalDiff st np cp nc cc len inst).updateTransform = true := by
  simp only [meshUniversalDiff]
  rw [if_pos h]
  split_ifs <;> rfl

/-- C5: in every mesh update pass whose final `updateTransform` flag is
set — in particular whenever the current group's unit count differs from
the iterator's recorded `instanceCount` — the location iterator is
rebuilt from the current group, the marker buffer is reallocated to
exactly `instanceCount * groupCount` of the new iterator, the
per-instance transforms are recomputed from the current group, and
`updateColor` is forced to true. -/
theorem c5_transform_rebuild (b : MeshBuilder) (curProps : Props) (group : SymmetryGroup)
    (curMesh : Mesh) (locIt : LocIter) (curConfId : Nat) (structureRef : Option Nat)
    (values : Values) (patch : PropsPatch) :
    (group.units.length ≠ locIt.instanceCount →
      (meshUpdate b curProps group curMesh locIt curConfId structureRef values
        patch).flags.updateTransform = true) ∧
    ((meshUpdate b curProps group curMesh locIt curConfId structureRef values
        patch).flags.updateTransform = true →
      (meshUpdate b curProps group curMesh locIt curConfId structureRef values
        patch).locIt = b.createLocationIterator group ∧
      (meshUpdate b curProps group curMesh locIt curConfId structureRef values
        patch).values.marker =
        List.replicate ((b.createLocationIterator group).instanceCount *
          (b.createLocationIterator group).groupCount) 0 ∧
      (meshUpdate b curProps group curMesh locIt curConfId structureRef values
        patch).values.marker.length =
        (b.createLocationIterator group).instanceCount *
          (b.createLocationIterator group).groupCount ∧
      (meshUpdate b curProps group curMesh locIt curConfId structureRef values
        patch).values.transform = group.units.map (fun u => u.transform) ∧
      (meshUpdate b curProps group curMesh locIt curConfId structureRef values
        patch).flags.updateColor = true) := by
  by_cases hd : (meshUniversalDiff
      (b.setUpdateState VisualUpdateState.reset
        (bindStructure (mergeProps curProps patch) structureRef) curProps)
      (bindStructure (mergeProps curProps patch) structureRef) curProps
      (repUnit group).conformationId curConfId
      group.units.length locIt.instanceCount).updateTransform = true
  · constructor
    · intro _
      simp only [meshUpdate, meshUpdateCore]
      simp only [hd, if_true]
      split_ifs <;> rfl
    · intro _
      simp only [meshUpdate, meshUpdateCore, createMarkers, createUnitsTransform,
        createColors]
      simp only [hd, if_true]
      split_ifs <;> simp [List.length_replicate]
  · have hfalse : (meshUniversalDiff
        (b.setUpdateState VisualUpdateState.reset
          (bindStructure (mergeProps curProps patch) structureRef) curProps)
        (bindStructure (mergeProps curProps patch) structureRef) curProps
        (repUnit group).conformationId curConfId
        group.units.length locIt.instanceCount).updateTransform = false := by
      revert hd
      cases (meshUniversalDiff
        (b.setUpdateState VisualUpdateState.reset
          (bindStructure (mergeProps curProps patch) structureRef) curProps)
        (bindStructure (mergeProps curProps patch) structureRef) curProps
        (repUnit group).conformationId curConfId
        group.units.length locIt.instanceCount).updateTransform <;> simp
    constructor
    · intro hlen
      exact absurd (meshUniversalDiff_updateTransform_of_ne _ _ _ _ _ _ _ hlen) hd
    · intro hcontra
      exfalso
      apply hd
      revert hcontra
      simp only [meshUpdate, meshUpdateCore]
      simp only [hfalse]
      split_ifs <;> simp_all


/-- C5 witness: a concrete update pass with a unit-count mismatch
(1 unit vs recorded `instanceCount` 5) reallocates the marker buffer to
the new iterator's `instanceCount * groupCount = 1 * 3`. -/
theorem c5_transform_rebuild_witness :
    (meshUpdate exMeshBuilder exProps exGroupC Mesh.createEmpty ⟨3, 5⟩ 0 none
      (createUnitsMeshRenderObject exGroupC Mesh.createEmpty ⟨3, 5⟩ exProps).values
      {}).values.marker.length = 1 * 3 := by
  have h := c5_transform_rebuild exMeshBuilder exProps exGroupC Mesh.createEmpty ⟨3, 5⟩ 0
    none (createUnitsMeshRenderObject exGroupC Mesh.createEmpty ⟨3, 5⟩ exProps).values {}
  obtain ⟨-, -, hlen2, -, -⟩ := h.2 (h.1 (by decide))
  rw [hlen2]
  decide

/-- C6: `mark(loci, action)` returns false and changes nothing when no
render object exists; with the every-loci sentinel it applies the action
to exactly the slots `[0, groupCount * instanceCount)` and no others; and
it bumps the marker value cell's version (the GPU re-upload signal) when
and only when it returns true, which for the every-loci sentinel holds
exactly when some marker byte actually changed. -/
theorem c6_mark (b : MeshBuilder) (s : MeshVisualState) (loci : Loci)
    (action : Nat → Nat) :
    (s.renderObject = none → meshMark b s loci action = (s, false)) ∧
    (∀ ro, s.renderObject = some ro →
      ∃ ro', (meshMark b s loci action).1.renderObject = some ro' ∧
        ro'.values.markerVersion =
          (if (meshMark b s loci action).2 then ro.values.markerVersion + 1
           else ro.values.markerVersion) ∧
        (isEveryLoci loci = true →
          (∀ i, ro'.values.marker[i]? = (ro.values.marker[i]?).map
            (fun bVal => if i < (s.locationIt.getD ⟨0, 0⟩).groupCount *
                (s.locationIt.getD ⟨0, 0⟩).instanceCount then action bVal else bVal)) ∧
          ((meshMark b s loci action).2 = true ↔
            ro'.values.marker ≠ ro.values.marker))) := by
  rcases s with ⟨ro0, cp, cm, cg, cs, ci, cc⟩
  rcases ro0 with _ | r
  · exact ⟨fun _ => rfl, fun ro h => by simp at h⟩
  refine ⟨fun h => by simp at h, fun ro h => ?_⟩
  simp only [MeshVisualState.renderObject, Option.some.injEq] at h
  subst h
  by_cases hev : isEveryLoci loci = true
  · have hred : meshMark b ⟨some r, cp, cm, cg, cs, ci, cc⟩ loci action =
        (let res := applyMarkerAction r.values.marker 0
          ((ci.getD ⟨0, 0⟩).groupCount * (ci.getD ⟨0, 0⟩).instanceCount) action
         let newValues :=
          if res.2 then
            { r.values with marker := res.1, markerVersion := r.values.markerVersion + 1 }
          else
            { r.values with marker := res.1 }
         (⟨some { r with values := newValues }, cp, cm, cg, cs, ci, cc⟩, res.2)) := by
      simp only [meshMark, hev, if_pos]
    rw [hred]
    refine ⟨_, rfl, ?_, fun _ => ⟨?_, ?_⟩⟩
    · by_cases hch : (applyMarkerAction r.values.marker 0
          ((ci.getD ⟨0, 0⟩).groupCount * (ci.getD ⟨0, 0⟩).instanceCount) action).2 <;>
        simp [hch]
    · intro i
      by_cases hch : (applyMarkerAction r.values.marker 0
          ((ci.getD ⟨0, 0⟩).groupCount * (ci.getD ⟨0, 0⟩).instanceCount) action).2 <;>
        simp only [hch, if_true, if_false, Bool.false_eq_true, ite_false, ite_true] <;>
        exact applyIntervalAction_getElem? r.values.marker _ action i
    · by_cases hch : (applyMarkerAction r.values.marker 0
          ((ci.getD ⟨0, 0⟩).groupCount * (ci.getD ⟨0, 0⟩).instanceCount) action).2 <;>
        simp only [applyMarkerAction, decide_eq_true_eq] at hch ⊢ <;>
        simp [hch]
  · have hred : meshMark b ⟨some r, cp, cm, cg, cs, ci, cc⟩ loci action =
        (let res := (b.markIntervals loci (cg.getD defaultGroup)).foldl
          (fun acc iv =>
            let a2 := applyMarkerAction acc.1 iv.1 iv.2 action
            (a2.1, acc.2 || a2.2))
          (r.values.marker, false)
         let newValues :=
          if res.2 then
            { r.values with marker := res.1, markerVersion := r.values.markerVersion + 1 }
          else
            { r.values with marker := res.1 }
         (⟨some { r with values := newValues }, cp, cm, cg, cs, ci, cc⟩, res.2)) := by
      simp only [meshMark, hev, if_neg, Bool.false_eq_true, ite_false]
    rw [hred]
    refine ⟨_, rfl, ?_, fun hcon => absurd hcon hev⟩
    by_cases hch : ((b.markIntervals loci (cg.getD defaultGroup)).foldl
        (fun acc iv =>
          let a2 := applyMarkerAction acc.1 iv.1 iv.2 action
          (a2.1, acc.2 || a2.2))
        (r.values.marker, false)).2 <;>
      simp [hch]


/-- C6 witness: with no render object the call is a no-op returning
false; on the concrete created state, every-loci marking with an
incrementing action returns true (all six marker bytes changed). -/
theorem c6_mark_witness :
    meshMark exMeshBuilder MeshVisualState.init Loci.everyLoci (fun bVal => bVal + 1) =
      (MeshVisualState.init, false) ∧
    (meshMark exMeshBuilder exState1 Loci.everyLoci (fun bVal => bVal + 1)).2 = true := by
  refine ⟨(c6_mark exMeshBuilder MeshVisualState.init Loci.everyLoci
    (fun bVal => bVal + 1)).1 rfl, ?_⟩
  obtain ⟨ro', hro', -, hev⟩ :=
    (c6_mark exMeshBuilder exState1 Loci.everyLoci (fun bVal => bVal + 1)).2 exRO1
      (by decide)
  obtain ⟨-, hiff⟩ := hev rfl
  have hcomp : (meshMark exMeshBuilder exState1 Loci.everyLoci
      (fun bVal => bVal + 1)).1.renderObject = some exRO1marked := by decide
  rw [hcomp] at hro'
  have hx : exRO1marked = ro' := by injection hro'
  subst hx
  exact hiff.mpr (by decide)

theorem meshUniversalDiff_createGeometry_of_size (st : VisualUpdateState)
    (np cp : Props) (nc cc len inst : Nat) (h : np.sizeTheme ≠ cp.sizeTheme) :
    (meshUniversalDiff st np cp nc cc len inst).createGeometry = true := by
  simp only [meshUniversalDiff]
  rw [if_pos h]
  split_ifs <;> rfl

theorem pointsUniversalDiff_updateSize_of_size (st : VisualUpdateState)
    (np cp : Props) (nc cc len inst : Nat) (h : np.sizeTheme ≠ cp.sizeTheme) :
    (pointsUniversalDiff st np cp nc cc len inst).updateSize = true := by
  simp only [pointsUniversalDiff]
  rw [if_pos h]
  split_ifs <;> rfl

theorem linesUniversalDiff_updateSize_of_size (st : VisualUpdateState)
    (np cp : Props) (nc cc len inst : Nat) (h : np.sizeTheme ≠ cp.sizeTheme) :
    (linesUniversalDiff st np cp nc cc len inst).updateSize = true := by
  simp only [linesUniversalDiff]
  rw [if_pos h]
  split_ifs <;> rfl

theorem meshUpdateCore_flags_createGeometry (b : MeshBuilder) (np cp : Props)
    (g : SymmetryGroup) (m : Mesh) (it : LocIter) (cid : Nat) (str : Option Nat)
    (v : Values) :
    (meshUpdateCore b np cp g m it cid str v).flags.createGeometry =
      (meshUniversalDiff (b.setUpdateState VisualUpdateState.reset np cp) np cp
        (repUnit g).conformationId cid g.units.length it.instanceCount).createGeometry := by
  simp only [meshUpdateCore]
  split_ifs <;> rfl

theorem pointsUpdateCore_flags_updateSize (b : PointsBuilder) (np cp : Props)
    (g : SymmetryGroup) (pts : Points) (it : LocIter) (cid : Nat) (str : Option Nat)
    (v : Values) :
    (pointsUpdateCore b np cp g pts it cid str v).flags.updateSize =
      (pointsUniversalDiff (b.setUpdateState VisualUpdateState.reset np cp) np cp
        (repUnit g).conformationId cid g.units.length it.instanceCount).updateSize := by
  simp only [pointsUpdateCore]
  split_ifs <;> rfl

theorem linesUpdateCore_flags_updateSize (b : LinesBuilder) (np cp : Props)
    (g : SymmetryGroup) (ls : Lines) (it : LocIter) (cid : Nat) (str : Option Nat)
    (v : Values) :
    (linesUpdateCore b np cp g ls it cid str v).flags.updateSize =
      (linesUniversalDiff (b.setUpdateState VisualUpdateState.reset np cp) np cp
        (repUnit g).conformationId cid g.units.length it.instanceCount).updateSize := by
  simp only [linesUpdateCore]
  split_ifs <;> rfl

theorem meshUniversalDiff_eq (st : VisualUpdateState) (np cp : Props)
    (nc cc len inst : Nat) :
    meshUniversalDiff st np cp nc cc len inst =
      { createGeometry := st.createGeometry || decide (nc ≠ cc) ||
          decide (np.sizeTheme ≠ cp.sizeTheme) || decide (np.unitKinds ≠ cp.unitKinds)
        updateColor := st.updateColor || decide (np.colorTheme ≠ cp.colorTheme)
        updateSize := st.updateSize
        updateTransform := st.updateTransform || decide (len ≠ inst) } := by
  by_cases h1 : nc = cc <;> by_cases h2 : len = inst <;>
  by_cases h3 : np.sizeTheme = cp.sizeTheme <;>
  by_cases h4 : np.colorTheme = cp.colorTheme <;>
  by_cases h5 : np.unitKinds = cp.unitKinds <;>
    simp [meshUniversalDiff, h1, h2, h3, h4, h5]

theorem pointsUniversalDiff_eq (st : VisualUpdateState) (np cp : Props)
    (nc cc len inst : Nat) :
    pointsUniversalDiff st np cp nc cc len inst =
      { createGeometry := st.createGeometry || decide (nc ≠ cc) ||
          decide (np.unitKinds ≠ cp.unitKinds)
        updateColor := st.updateColor || decide (np.colorTheme ≠ cp.colorTheme)
        updateSize := st.updateSize || decide (np.sizeTheme ≠ cp.sizeTheme)
        updateTransform := st.updateTransform || decide (len ≠ inst) } := by
  by_cases h1 : nc = cc <;> by_cases h2 : len = inst <;>
  by_cases h3 : np.sizeTheme = cp.sizeTheme <;>
  by_cases h4 : np.colorTheme = cp.colorTheme <;>
  by_cases h5 : np.unitKinds = cp.unitKinds <;>
    simp [pointsUniversalDiff, h1, h2, h3, h4, h5]

/-- C7: on every update pass where the merged size theme is structurally
unequal to the current one, the mesh visual forces `createGeometry` while
the points and lines visuals force `updateSize` instead; the lines and
points universal diff rules are identical, and the mesh rules differ from
them exactly in where the size-theme inequality is routed
(`createGeometry` vs `updateSize`) — all other flags agree. -/
theorem c7_size_theme_routing (b_m : MeshBuilder) (b_p : PointsBuilder)
    (b_l : LinesBuilder) (st : VisualUpdateState) (np cp curProps : Props)
    (nc cc len inst : Nat) (group : SymmetryGroup) (curMesh : Mesh)
    (curPoints : Points) (curLines : Lines) (locIt : LocIter) (curConfId : Nat)
    (strRef : Option Nat) (v : Values) (patch : PropsPatch) :
    ((mergeProps curProps patch).sizeTheme ≠ curProps.sizeTheme →
      (meshUpdate b_m curProps group curMesh locIt curConfId strRef v
        patch).flags.createGeometry = true ∧
      (pointsUpdate b_p curProps group curPoints locIt curConfId strRef v
        patch).flags.updateSize = true ∧
      (linesUpdate b_l curProps group curLines locIt curConfId strRef v
        patch).flags.updateSize = true) ∧
    linesUniversalDiff st np cp nc cc len inst =
      pointsUniversalDiff st np cp nc cc len inst ∧
    (meshUniversalDiff st np cp nc cc len inst).updateTransform =
      (pointsUniversalDiff st np cp nc cc len inst).updateTransform ∧
    (meshUniversalDiff st np cp nc cc len inst).updateColor =
      (pointsUniversalDiff st np cp nc cc len inst).updateColor ∧
    (meshUniversalDiff st np cp nc cc len inst).createGeometry =
      ((pointsUniversalDiff st np cp nc cc len inst).createGeometry ||
        decide (np.sizeTheme ≠ cp.sizeTheme)) ∧
    (pointsUniversalDiff st np cp nc cc len inst).updateSize =
      ((meshUniversalDiff st np cp nc cc len inst).updateSize ||
        decide (np.sizeTheme ≠ cp.sizeTheme)) := by
  refine ⟨fun h => ⟨?_, ?_, ?_⟩, rfl, ?_, ?_, ?_, ?_⟩
  · rw [meshUpdate, meshUpdateCore_flags_createGeometry]
    exact meshUniversalDiff_createGeometry_of_size _ _ _ _ _ _ _ (by simpa using h)
  · rw [pointsUpdate, pointsUpdateCore_flags_updateSize]
    exact pointsUniversalDiff_updateSize_of_size _ _ _ _ _ _ _ (by simpa using h)
  · rw [linesUpdate, linesUpdateCore_flags_updateSize]
    exact linesUniversalDiff_updateSize_of_size _ _ _ _ _ _ _ (by simpa using h)
  · rw [meshUniversalDiff_eq, pointsUniversalDiff_eq]
  · rw [meshUniversalDiff_eq, pointsUniversalDiff_eq]
  · rw [meshUniversalDiff_eq, pointsUniversalDiff_eq]
    exact Bool.or_right_comm _ _ _
  · rw [meshUniversalDiff_eq, pointsUniversalDiff_eq]


/-- C7 witness: a concrete size-theme change (1 -> 9) forces
`createGeometry` in the mesh update and `updateSize` in the points
update. -/
theorem c7_size_theme_routing_witness :
    (meshUpdate exMeshBuilder exProps exGroupA ⟨8, 7⟩ ⟨3, 2⟩ 7 (some 42) exRO1.values
      { sizeTheme := some 9 }).flags.createGeometry = true ∧
    (pointsUpdate exPointsBuilder exProps exGroupA ⟨8, 7⟩ ⟨3, 2⟩ 7 (some 42) exRO1.values
      { sizeTheme := some 9 }).flags.updateSize = true := by
  have h := (c7_size_theme_routing exMeshBuilder exPointsBuilder exLinesBuilder
    VisualUpdateState.reset exProps exProps exProps 0 0 0 0 exGroupA ⟨8, 7⟩ ⟨8, 7⟩ ⟨8, 7⟩
    ⟨3, 2⟩ 7 (some 42) exRO1.values { sizeTheme := some 9 }).1 (by decide)
  exact ⟨h.1, h.2.1⟩

theorem meshUpdateCore_excluded (b : MeshBuilder) (np cp : Props) (g : SymmetryGroup)
    (m : Mesh) (it : LocIter) (cid : Nat) (str : Option Nat) (v : Values)
    (hk : (repUnit g).kind ∉ np.unitKinds)
    (hm : m = Mesh.createEmpty) (hd : v.drawCount = 0) :
    (meshUpdateCore b np cp g m it cid str v).builderInvoked = false ∧
    (meshUpdateCore b np cp g m it cid str v).mesh = Mesh.createEmpty ∧
    (meshUpdateCore b np cp g m it cid str v).values.drawCount = 0 := by
  simp only [meshUpdateCore, createMarkers, createUnitsTransform, createColors]
  split_ifs <;> simp_all [Mesh.createEmpty]

theorem meshCreate_excluded (b : MeshBuilder) (s : MeshVisualState) (g : SymmetryGroup)
    (patch : PropsPatch)
    (hk : (repUnit g).kind ∉
      (bindStructure (mergeProps b.defaultProps patch) s.currentStructure).unitKinds) :
    (meshCreate b s g patch).2.builderInvoked = false ∧
    (meshCreate b s g patch).1.mesh = some Mesh.createEmpty ∧
    ∃ ro', (meshCreate b s g patch).1.renderObject = some ro' ∧
      ro'.values.drawCount = 0 := by
  have hk2 : (repUnit g).kind ∉ (mergeProps b.defaultProps patch).unitKinds := by
    simpa using hk
  simp only [meshCreate, createUnitsMeshRenderObject]
  exact ⟨by simp [hk2], by simp [hk2], _, rfl, by simp [hk2, Mesh.createEmpty]⟩

theorem c8aux_mesh (b : MeshBuilder) (s : MeshVisualState) (patch : PropsPatch)
    (sg : StructureGroup) (s' : MeshVisualState) (info : CallInfo)
    (heq : meshCreateOrUpdate b s patch (some sg) = (s', Except.ok info))
    (hpre : ∀ ro, s.renderObject = some ro →
      s.mesh = some Mesh.createEmpty ∧ ro.values.drawCount = 0)
    (hexcl : (repUnit (s'.currentGroup.getD defaultGroup)).kind ∉
      (s'.currentProps.getD b.defaultProps).unitKinds) :
    info.builderInvoked = false ∧ s'.mesh = some Mesh.createEmpty ∧
    ∃ ro', s'.renderObject = some ro' ∧ ro'.values.drawCount = 0 := by
  rcases s with ⟨ro0, cp, cm, cg, cs, ci, cc⟩
  rcases cg with _ | cur
  · -- no current group: create path
    simp only [meshCreateOrUpdate, meshCreateOrUpdateWith, Prod.mk.injEq] at heq
    obtain ⟨hs, hi⟩ := heq
    injection hi with hi
    subst hs hi
    exact meshCreate_excluded b _ sg.group patch (by simpa using hexcl)
  · rcases ro0 with _ | r
    · -- current group but no render object: create path
      simp only [meshCreateOrUpdate, meshCreateOrUpdateWith, Prod.mk.injEq] at heq
      obtain ⟨hs, hi⟩ := heq
      injection hi with hi
      subst hs hi
      exact meshCreate_excluded b _ sg.group patch (by simpa using hexcl)
    · by_cases hh : sg.group.hashCode ≠ cur.hashCode
      · -- hash change: create path
        simp only [meshCreateOrUpdate, meshCreateOrUpdateWith, if_pos hh,
          Prod.mk.injEq] at heq
        obtain ⟨hs, hi⟩ := heq
        injection hi with hi
        subst hs hi
        exact meshCreate_excluded b _ sg.group patch (by simpa using hexcl)
      · -- update path, with or without adoption
        obtain ⟨hm, hd⟩ := hpre r rfl
        simp only [MeshVisualState.mesh, Option.some.injEq] at hm
        subst hm
        by_cases hc : sameGroupConformation sg.group cur = true
        · simp only [meshCreateOrUpdate, meshCreateOrUpdateWith, if_neg hh,
            if_neg (show ¬ ¬ (sameGroupConformation sg.group cur = true) from
              fun hn => hn hc),
            meshUpdateStep, meshUpdate, Option.getD_some, Prod.mk.injEq] at heq
          obtain ⟨hs, hi⟩ := heq
          injection hi with hi
          subst hs hi
          have hcore := meshUpdateCore_excluded b
            (bindStructure (mergeProps (cp.getD b.defaultProps) patch)
              (some sg.structureRef))
            (cp.getD b.defaultProps) cur Mesh.createEmpty
            (ci.getD ⟨0, 0⟩) (cc.getD 0) (some sg.structureRef) r.values
            (by simpa using hexcl) rfl hd
          exact ⟨hcore.1, by simp [hcore.2.1], _, rfl, hcore.2.2⟩
        · simp only [meshCreateOrUpdate, meshCreateOrUpdateWith, if_neg hh,
            if_pos hc, meshUpdateStep, meshUpdate, Option.getD_some,
            Prod.mk.injEq] at heq
          obtain ⟨hs, hi⟩ := heq
          injection hi with hi
          subst hs hi
          have hcore := meshUpdateCore_excluded b
            (bindStructure (mergeProps (cp.getD b.defaultProps) patch)
              (some sg.structureRef))
            (cp.getD b.defaultProps) sg.group Mesh.createEmpty
            (ci.getD ⟨0, 0⟩) (cc.getD 0) (some sg.structureRef) r.values
            (by simpa using hexcl) rfl hd
          exact ⟨hcore.1, by simp [hcore.2.1], _, rfl, hcore.2.2⟩

theorem pointsUpdateCore_excluded (b : PointsBuilder) (np cp : Props)
    (g : SymmetryGroup) (pts : Points) (it : LocIter) (cid : Nat) (str : Option Nat)
    (v : Values)
    (hk : (repUnit g).kind ∉ np.unitKinds)
    (hm : pts = Points.createEmpty) (hd : v.drawCount = 0) :
    (pointsUpdateCore b np cp g pts it cid str v).builderInvoked = false ∧
    (pointsUpdateCore b np cp g pts it cid str v).points = Points.createEmpty ∧
    (pointsUpdateCore b np cp g pts it cid str v).values.drawCount = 0 := by
  simp only [pointsUpdateCore, createMarkers, createUnitsTransform, createColors,
    createSizes]
  split_ifs <;> simp_all [Points.createEmpty]

theorem pointsCreate_excluded (b : PointsBuilder) (s : PointsVisualState)
    (g : SymmetryGroup) (patch : PropsPatch)
    (hk : (repUnit g).kind ∉
      (bindStructure (mergeProps b.defaultProps patch) s.currentStructure).unitKinds) :
    (pointsCreate b s g patch).2.builderInvoked = false ∧
    (pointsCreate b s g patch).1.points = some Points.createEmpty ∧
    ∃ ro', (pointsCreate b s g patch).1.renderObject = some ro' ∧
      ro'.values.drawCount = 0 := by
  have hk2 : (repUnit g).kind ∉ (mergeProps b.defaultProps patch).unitKinds := by
    simpa using hk
  simp only [pointsCreate, createUnitsPointsRenderObject]
  exact ⟨by simp [hk2], by simp [hk2], _, rfl, by simp [hk2, Points.createEmpty]⟩

theorem c8aux_points (b : PointsBuilder) (s : PointsVisualState) (patch : PropsPatch)
    (sg : StructureGroup) (s' : PointsVisualState) (info : CallInfo)
    (heq : pointsCreateOrUpdate b s patch (some sg) = (s', Except.ok info))
    (hpre : ∀ ro, s.renderObject = some ro →
      s.points = some Points.createEmpty ∧ ro.values.drawCount = 0)
    (hexcl : (repUnit (s'.currentGroup.getD defaultGroup)).kind ∉
      (s'.currentProps.getD b.defaultProps).unitKinds) :
    info.builderInvoked = false ∧ s'.points = some Points.createEmpty ∧
    ∃ ro', s'.renderObject = some ro' ∧ ro'.values.drawCount = 0 := by
  rcases s with ⟨ro0, cp, cm, cg, cs, ci, cc⟩
  rcases cg with _ | cur
  · simp only [pointsCreateOrUpdate, pointsCreateOrUpdateWith, Prod.mk.injEq] at heq
    obtain ⟨hs, hi⟩ := heq
    injection hi with hi
    subst hs hi
    exact pointsCreate_excluded b _ sg.group patch (by simpa using hexcl)
  · rcases ro0 with _ | r
    · simp only [pointsCreateOrUpdate, pointsCreateOrUpdateWith, Prod.mk.injEq] at heq
      obtain ⟨hs, hi⟩ := heq
      injection hi with hi
      subst hs hi
      exact pointsCreate_excluded b _ sg.group patch (by simpa using hexcl)
    · by_cases hh : sg.group.hashCode ≠ cur.hashCode
      · simp only [pointsCreateOrUpdate, pointsCreateOrUpdateWith, if_pos hh,
          Prod.mk.injEq] at heq
        obtain ⟨hs, hi⟩ := heq
        injection hi with hi
        subst hs hi
        exact pointsCreate_excluded b _ sg.group patch (by simpa using hexcl)
      · obtain ⟨hm, hd⟩ := hpre r rfl
        simp only [PointsVisualState.points, Option.some.injEq] at hm
        subst hm
        by_cases hc : sameGroupConformation sg.group cur = true
        · simp only [pointsCreateOrUpdate, pointsCreateOrUpdateWith, if_neg hh,
            if_neg (show ¬ ¬ (sameGroupConformation sg.group cur = true) from
              fun hn => hn hc),
            pointsUpdateStep, pointsUpdate, Option.getD_some, Prod.mk.injEq] at heq
          obtain ⟨hs, hi⟩ := heq
          injection hi with hi
          subst hs hi
          have hcore := pointsUpdateCore_excluded b
            (bindStructure (mergeProps (cp.getD b.defaultProps) patch)
              (some sg.structureRef))
            (cp.getD b.defaultProps) cur Points.createEmpty
            (ci.getD ⟨0, 0⟩) (cc.getD 0) (some sg.structureRef) r.values
            (by simpa using hexcl) rfl hd
          exact ⟨hcore.1, by simp [hcore.2.1], _, rfl, hcore.2.2⟩
        · simp only [pointsCreateOrUpdate, pointsCreateOrUpdateWith, if_neg hh,
            if_pos hc, pointsUpdateStep, pointsUpdate, Option.getD_some,
            Prod.mk.injEq] at heq
          obtain ⟨hs, hi⟩ := heq
          injection hi with hi
          subst hs hi
          have hcore := pointsUpdateCore_excluded b
            (bindStructure (mergeProps (cp.getD b.defaultProps) patch)
              (some sg.structureRef))
            (cp.getD b.defaultProps) sg.group Points.createEmpty
            (ci.getD ⟨0, 0⟩) (cc.getD 0) (some sg.structureRef) r.values
            (by simpa using hexcl) rfl hd
          exact ⟨hcore.1, by simp [hcore.2.1], _, rfl, hcore.2.2⟩

theorem linesUpdateCore_excluded (b : LinesBuilder) (np cp : Props)
    (g : SymmetryGroup) (ls : Lines) (it : LocIter) (cid : Nat) (str : Option Nat)
    (v : Values)
    (hk : (repUnit g).kind ∉ np.unitKinds)
    (hm : ls = Lines.createEmpty) (hd : v.drawCount = 0) :
    (linesUpdateCore b np cp g ls it cid str v).builderInvoked = false ∧
    (linesUpdateCore b np cp g ls it cid str v).lines = Lines.createEmpty ∧
    (linesUpdateCore b np cp g ls it cid str v).values.drawCount = 0 := by
  simp only [linesUpdateCore, createMarkers, createUnitsTransform, createColors,
    createSizes]
  split_ifs <;> simp_all [Lines.createEmpty]

theorem linesCreate_excluded (b : LinesBuilder) (s : LinesVisualState)
    (g : SymmetryGroup) (patch : PropsPatch)
    (hk : (repUnit g).kind ∉
      (bindStructure (mergeProps b.defaultProps patch) s.currentStructure).unitKinds) :
    (linesCreate b s g patch).2.builderInvoked = false ∧
    (linesCreate b s g patch).1.lines = some Lines.createEmpty ∧
    ∃ ro', (linesCreate b s g patch).1.renderObject = some ro' ∧
      ro'.values.drawCount = 0 := by
  have hk2 : (repUnit g).kind ∉ (mergeProps b.defaultProps patch).unitKinds := by
    simpa using hk
  simp only [linesCreate, createUnitsLinesRenderObject]
  exact ⟨by simp [hk2], by simp [hk2], _, rfl, by simp [hk2, Lines.createEmpty]⟩

theorem c8aux_lines (b : LinesBuilder) (s : LinesVisualState) (patch : PropsPatch)
    (sg : StructureGroup) (s' : LinesVisualState) (info : CallInfo)
    (heq : linesCreateOrUpdate b s patch (some sg) = (s', Except.ok info))
    (hpre : ∀ ro, s.renderObject = some ro →
      s.lines = some Lines.createEmpty ∧ ro.values.drawCount = 0)
    (hexcl : (repUnit (s'.currentGroup.getD defaultGroup)).kind ∉
      (s'.currentProps.getD b.defaultProps).unitKinds) :
    info.builderInvoked = false ∧ s'.lines = some Lines.createEmpty ∧
    ∃ ro', s'.renderObject = some ro' ∧ ro'.values.drawCount = 0 := by
  rcases s with ⟨ro0, cp, cm, cg, cs, ci, cc⟩
  rcases cg with _ | cur
  · simp only [linesCreateOrUpdate, linesCreateOrUpdateWith, Prod.mk.injEq] at heq
    obtain ⟨hs, hi⟩ := heq
    injection hi with hi
    subst hs hi
    exact linesCreate_excluded b _ sg.group patch (by simpa using hexcl)
  · rcases ro0 with _ | r
    · simp only [linesCreateOrUpdate, linesCreateOrUpdateWith, Prod.mk.injEq] at heq
      obtain ⟨hs, hi⟩ := heq
      injection hi with hi
      subst hs hi
      exact linesCreate_excluded b _ sg.group patch (by simpa using hexcl)
    · by_cases hh : sg.group.hashCode ≠ cur.hashCode
      · simp only [linesCreateOrUpdate, linesCreateOrUpdateWith, if_pos hh,
          Prod.mk.injEq] at heq
        obtain ⟨hs, hi⟩ := heq
        injection hi with hi
        subst hs hi
        exact linesCreate_excluded b _ sg.group patch (by simpa using hexcl)
      · obtain ⟨hm, hd⟩ := hpre r rfl
        simp only [LinesVisualState.lines, Option.some.injEq] at hm
        subst hm
        by_cases hc : sameGroupConformation sg.group cur = true
        · simp only [linesCreateOrUpdate, linesCreateOrUpdateWith, if_neg hh,
            if_neg (show ¬ ¬ (sameGroupConformation sg.group cur = true) from
              fun hn => hn hc),
            linesUpdateStep, linesUpdate, Option.getD_some, Prod.mk.injEq] at heq
          obtain ⟨hs, hi⟩ := heq
          injection hi with hi
          subst hs hi
          have hcore := linesUpdateCore_excluded b
            (bindStructure (mergeProps (cp.getD b.defaultProps) patch)
              (some sg.structureRef))
            (cp.getD b.defaultProps) cur Lines.createEmpty
            (ci.getD ⟨0, 0⟩) (cc.getD 0) (some sg.structureRef) r.values
            (by simpa using hexcl) rfl hd
          exact ⟨hcore.1, by simp [hcore.2.1], _, rfl, hcore.2.2⟩
        · simp only [linesCreateOrUpdate, linesCreateOrUpdateWith, if_neg hh,
            if_pos hc, linesUpdateStep, linesUpdate, Option.getD_some,
            Prod.mk.injEq] at heq
          obtain ⟨hs, hi⟩ := heq
          injection hi with hi
          subst hs hi
          have hcore := linesUpdateCore_excluded b
            (bindStructure (mergeProps (cp.getD b.defaultProps) patch)
              (some sg.structureRef))
            (cp.getD b.defaultProps) sg.group Lines.createEmpty
            (ci.getD ⟨0, 0⟩) (cc.getD 0) (some sg.structureRef) r.values
            (by simpa using hexcl) rfl hd
          exact ⟨hcore.1, by simp [hcore.2.1], _, rfl, hcore.2.2⟩

/-- C8: whenever the representative unit's kind is excluded by the
`unitKinds` property (for each of the mesh, points and lines visuals),
neither the create path nor the update path invokes the builder's
`createMesh`/`createPoints`/`createLines`; the resulting geometry is the
canonical empty geometry and the render object's `drawCount` cell is 0.
(The update path additionally assumes the engine was not already holding
a stale non-empty geometry — the invariant established by any previous
call made under the same exclusion.) -/
theorem c8_unit_kinds_filter :
    (∀ (b : MeshBuilder) (s : MeshVisualState) (patch : PropsPatch)
      (sg : StructureGroup) (s' : MeshVisualState) (info : CallInfo),
      meshCreateOrUpdate b s patch (some sg) = (s', Except.ok info) →
      (∀ ro, s.renderObject = some ro →
        s.mesh = some Mesh.createEmpty ∧ ro.values.drawCount = 0) →
      (repUnit (s'.currentGroup.getD defaultGroup)).kind ∉
        (s'.currentProps.getD b.defaultProps).unitKinds →
      info.builderInvoked = false ∧ s'.mesh = some Mesh.createEmpty ∧
      ∃ ro', s'.renderObject = some ro' ∧ ro'.values.drawCount = 0) ∧
    (∀ (b : PointsBuilder) (s : PointsVisualState) (patch : PropsPatch)
      (sg : StructureGroup) (s' : PointsVisualState) (info : CallInfo),
      pointsCreateOrUpdate b s patch (some sg) = (s', Except.ok info) →
      (∀ ro, s.renderObject = some ro →
        s.points = some Points.createEmpty ∧ ro.values.drawCount = 0) →
      (repUnit (s'.currentGroup.getD defaultGroup)).kind ∉
        (s'.currentProps.getD b.defaultProps).unitKinds →
      info.builderInvoked = false ∧ s'.points = some Points.createEmpty ∧
      ∃ ro', s'.renderObject = some ro' ∧ ro'.values.drawCount = 0) ∧
    (∀ (b : LinesBuilder) (s : LinesVisualState) (patch : PropsPatch)
      (sg : StructureGroup) (s' : LinesVisualState) (info : CallInfo),
      linesCreateOrUpdate b s patch (some sg) = (s', Except.ok info) →
      (∀ ro, s.renderObject = some ro →
        s.lines = some Lines.createEmpty ∧ ro.values.drawCount = 0) →
      (repUnit (s'.currentGroup.getD defaultGroup)).kind ∉
        (s'.currentProps.getD b.defaultProps).unitKinds →
      info.builderInvoked = false ∧ s'.lines = some Lines.createEmpty ∧
      ∃ ro', s'.renderObject = some ro' ∧ ro'.values.drawCount = 0) :=
  ⟨c8aux_mesh, c8aux_points, c8aux_lines⟩

/-- C8 witness: creating with `unitKinds = [Atomic]` and a Spheres
representative unit yields the canonical empty mesh (and `drawCount = 0`,
no builder invocation, per the applied theorem). -/
theorem c8_unit_kinds_filter_witness :
    (meshCreateOrUpdate exMeshBuilder MeshVisualState.init
      { unitKinds := some [UnitKind.atomic] } (some ⟨42, exGroupS⟩)).1.mesh =
      some Mesh.createEmpty := by
  have h := c8_unit_kinds_filter.1 exMeshBuilder MeshVisualState.init
    { unitKinds := some [UnitKind.atomic] } ⟨42, exGroupS⟩
    (meshCreateOrUpdate exMeshBuilder MeshVisualState.init
      { unitKinds := some [UnitKind.atomic] } (some ⟨42, exGroupS⟩)).1
    { path := CallPath.createPath, flags := VisualUpdateState.reset
      builderInvoked := false, adopted := false }
    (by decide) (fun ro h => by simp [MeshVisualState.init] at h) (by decide)
  exact h.2.1

theorem meshUpdateCore_flags (b : MeshBuilder) (np cp : Props) (g : SymmetryGroup)
    (m : Mesh) (it : LocIter) (cid : Nat) (str : Option Nat) (v : Values) :
    (meshUpdateCore b np cp g m it cid str v).flags =
      (let d := meshUniversalDiff (b.setUpdateState VisualUpdateState.reset np cp) np cp
        (repUnit g).conformationId cid g.units.length it.instanceCount
      { createGeometry := d.createGeometry
        updateColor := d.updateColor || d.updateTransform || d.createGeometry
        updateSize := d.updateSize
        updateTransform := d.updateTransform }) := by
  rcases hd : meshUniversalDiff (b.setUpdateState VisualUpdateState.reset np cp) np cp
    (repUnit g).conformationId cid g.units.length it.instanceCount with ⟨cg, uc, us, ut⟩
  simp only [meshUpdateCore, hd]
  cases ut <;> cases cg <;> cases uc <;> simp

/-- C10: two candidate groups supplied to the update path that agree in
unit count and in the first unit's conformation id produce the same
adopt-or-keep decision and the same update flags (in particular the same
geometry-rebuild decision): the engine reads only `units.length` and
`units[0]`'s conformation id, so conformations of non-first units never
trigger adoption or a geometry rebuild. -/
theorem c10_first_unit_only (b : MeshBuilder) (s : MeshVisualState) (patch : PropsPatch)
    (str : Nat) (g1 g2 cur : SymmetryGroup)
    (hcur : s.currentGroup = some cur) (hro : s.renderObject.isSome = true)
    (h1 : g1.hashCode = cur.hashCode) (h2 : g2.hashCode = cur.hashCode)
    (hlen : g1.units.length = g2.units.length)
    (hconf : (repUnit g1).conformationId = (repUnit g2).conformationId) :
    ∃ i1 i2,
      (meshCreateOrUpdate b s patch (some ⟨str, g1⟩)).2 = Except.ok i1 ∧
      (meshCreateOrUpdate b s patch (some ⟨str, g2⟩)).2 = Except.ok i2 ∧
      i1.path = CallPath.updatePath ∧ i2.path = CallPath.updatePath ∧
      i1.adopted = i2.adopted ∧ i1.flags = i2.flags := by
  rcases s with ⟨ro, cp, cm, cg, cs, ci, cc⟩
  rcases ro with _ | r
  · simp at hro
  simp only [MeshVisualState.currentGroup] at hcur
  subst hcur
  have hne1 : ¬ (g1.hashCode ≠ cur.hashCode) := fun h => h h1
  have hne2 : ¬ (g2.hashCode ≠ cur.hashCode) := fun h => h h2
  have hsgc : sameGroupConformation g1 cur = sameGroupConformation g2 cur := by
    simp [sameGroupConformation, hlen, hconf]
  by_cases hc : sameGroupConformation g2 cur = true
  · have hc1 : sameGroupConformation g1 cur = true := hsgc.trans hc
    simp only [meshCreateOrUpdate, meshCreateOrUpdateWith, if_neg hne1, if_neg hne2,
      if_neg (show ¬ ¬ (sameGroupConformation g1 cur = true) from fun hn => hn hc1),
      if_neg (show ¬ ¬ (sameGroupConformation g2 cur = true) from fun hn => hn hc),
      meshUpdateStep]
    exact ⟨_, _, rfl, rfl, rfl, rfl, rfl, rfl⟩
  · have hcf : ¬ (sameGroupConformation g1 cur = true) := fun hn => hc (hsgc.symm.trans hn)
    simp only [meshCreateOrUpdate, meshCreateOrUpdateWith, if_neg hne1, if_neg hne2,
      if_pos hcf, if_pos hc, meshUpdateStep]
    refine ⟨_, _, rfl, rfl, rfl, rfl, rfl, ?_⟩
    simp only [meshUpdate, meshUpdateCore_flags, Option.getD_some]
    rw [hconf, hlen]

/-- C10 witness: two concrete groups differing only in the second unit's
conformation produce identical call results against `exState1`. -/
theorem c10_first_unit_only_witness :
    (meshCreateOrUpdate exMeshBuilder exState1 {} (some ⟨42, exGroupX⟩)).2 =
      (meshCreateOrUpdate exMeshBuilder exState1 {} (some ⟨42, exGroupY⟩)).2 := by
  obtain ⟨i1, i2, e1, e2, -, -, -, -⟩ :=
    c10_first_unit_only exMeshBuilder exState1 {} 42 exGroupX exGroupY exGroupA
      (by decide) (by decide) (by decide) (by decide) (by decide) (by decide)
  have k1 : Except.ok (ε := String) i1 =
      Except.ok ({ path := CallPath.updatePath, flags := VisualUpdateState.reset
                   builderInvoked := false, adopted := false } : CallInfo) := by
    rw [← e1]; decide
  have k2 : Except.ok (ε := String) i2 =
      Except.ok ({ path := CallPath.updatePath, flags := VisualUpdateState.reset
                   builderInvoked := false, adopted := false } : CallInfo) := by
    rw [← e2]; decide
  rw [e1, e2, k1, k2]

end UnitsVisual
